import Mathlib

/-!
# CSGO_Betting_Algo — parser, mutation layer and upsert coordinator

A shallow embedding of the repository's ingestion/storage core:

* `data-ingestion/bo3-api/parser.py` — conversion of loosely structured API
  payloads into typed records (`parse_team`, `parse_tournament`,
  `parse_ai_prediction`, `parse_betting_team`, `parse_betting_odds`,
  `parse_match`, `parse_datetime`);
* `data-storage/mutations/bo3_mutations.py` — pure model-to-storage-field
  mapping (`to_team_dict`, `to_tournament_dict`, `to_match_dict`,
  `to_ai_prediction_dict`, `to_betting_odds_dict`);
* `data-storage/storage_service.py` — the upsert coordinator
  (`save_match`, `update_match`, `_get_or_create_team_from_model`,
  `_get_or_create_tournament_from_model`, `save_ai_prediction`,
  `save_betting_odds`).

Modelling conventions: Python values flowing through untyped payloads are an
inductive `JVal` (`null` is Python `None`); a Python `float` is an exact
rational (IEEE rounding is not modelled; every value a theorem below touches
is exactly representable); `datetime` values are carried as their normalized
ISO text; the relational store is an explicit record of row lists with a
sequential id generator standing in for UUID assignment and a `now` counter
standing in for wall-clock timestamps.  Session semantics are explicit: a
`PState` holds the committed snapshot and the pending view, every SQL
statement and every `session.commit()` is a counted step at which a
persistence-layer fault can be injected (`failAt`), an uncaught exception
carries the committed snapshot (the state a `session.rollback()` restores),
and `failAt = none` is the fault-free run.
-/

namespace CSGOBet

/-- A loosely typed Python/JSON value as passed around in API payloads.
Here `null` stands for Python `None`; `obj` is a `dict` in insertion order
with unique keys; `num` models a Python `float` as an exact rational. -/
inductive JVal where
  | null
  | bool (b : Bool)
  | int (n : Int)
  | num (q : Rat)
  | str (s : String)
  | obj (fields : List (String × JVal))
  | arr (elems : List JVal)

/-- Python truthiness, `bool(x)`. -/
def truthy : JVal → Bool
  | .null => false
  | .bool b => b
  | .int n => n != 0
  | .num q => q != 0
  | .str s => !s.isEmpty
  | .obj fields => !fields.isEmpty
  | .arr elems => !elems.isEmpty

/-- Python `d.get(k)`: the value at `k`, or `None` when the key is absent. -/
def dget (fields : List (String × JVal)) (k : String) : JVal :=
  match fields.find? (fun kv => kv.1 == k) with
  | some kv => kv.2
  | none => .null

/-- Python `d.get(k, dflt)`. -/
def dgetD (fields : List (String × JVal)) (k : String) (dflt : JVal) : JVal :=
  match fields.find? (fun kv => kv.1 == k) with
  | some kv => kv.2
  | none => dflt

/-- Whether the dictionary holds the key at all. -/
def hasKey (fields : List (String × JVal)) (k : String) : Bool :=
  (fields.find? (fun kv => kv.1 == k)).isSome

/-- A raised Python exception.  `dbError` is an injected persistence-layer
failure (`IntegrityError`, connectivity loss, ...); the spec's
`ValidationError` taxonomy corresponds to `valueError` raised by the
parser/coordinator. -/
inductive PyErr where
  | valueError (msg : String)
  | typeError
  | attributeError
  | dbError

/-- Python `int(x)`.  Truncates a float toward zero; parses decimal string
literals (sign and surrounding whitespace only — other textual forms are not
needed by any claim); raises `TypeError` on `None` and containers. -/
def pyInt : JVal → Except PyErr Int
  | .int n => .ok n
  | .bool b => .ok (if b then 1 else 0)
  | .num q => .ok (q.num.tdiv q.den)
  | .str s =>
    match s.trim.toInt? with
    | some n => .ok n
    | none => .error (.valueError "invalid literal for int")
  | _ => .error .typeError

/-- Python `float(x)`.  Decimal-point string literals are not modelled (no
claim touches them); integers and booleans widen exactly. -/
def pyFloat : JVal → Except PyErr Rat
  | .num q => .ok q
  | .int n => .ok n
  | .bool b => .ok (if b then 1 else 0)
  | .str s =>
    match s.trim.toInt? with
    | some n => .ok (n : Rat)
    | none => .error (.valueError "could not convert string to float")
  | _ => .error .typeError

/-- Python `str(x)`.  Container reprs are abbreviated (no claim reads
them). -/
def pyStr : JVal → String
  | .null => "None"
  | .bool b => if b then "True" else "False"
  | .int n => toString n
  | .num q => toString q
  | .str s => s
  | .obj _ => "{...}"
  | .arr _ => "[...]"

/-- Python `bool(x)` as used for the `active` flag. -/
def pyBool (v : JVal) : Bool := truthy v

/-- Python `dict(x)`: copies a dict.  The list-of-pairs form is not modelled
(no claim touches it). -/
def pyDict : JVal → Except PyErr JVal
  | .obj fields => .ok (.obj fields)
  | _ => .error .typeError

/-- Python `list(x)`: copies a list.  Other iterables are not modelled (no
claim touches them). -/
def pyList : JVal → Except PyErr JVal
  | .arr elems => .ok (.arr elems)
  | _ => .error .typeError

/-- A conservative recognizer for the `datetime.fromisoformat` prefix shape
`YYYY-MM-DD...`.  No claim depends on which strings parse; only the handling
of absent/falsy input is load-bearing. -/
def isoParsable (s : String) : Bool :=
  let cs := s.toList
  decide (cs.length ≥ 10) &&
    (List.range 10).all (fun i =>
      if i = 4 || i = 7 then cs[i]? == some '-'
      else match cs[i]? with
        | some c => c.isDigit
        | none => false)

/-!
## Typed models — `data-ingestion/bo3-api/models.py`

The dataclasses.  Fields Python types as `Optional[str]`/`Optional[int]` but
never coerces are carried as raw `JVal` (with `.null` for `None`); fields the
parser coerces get their semantic Lean type.  A parsed `datetime` is its
normalized ISO text, `Option String` with `none` for `None`.
-/

/-- BO3 API team model (`BO3Team`). -/
structure BO3Team where
  id : Int
  name : String
  slug : JVal := .null
  country_code : JVal := .null
  logo_url : JVal := .null

/-- BO3 API tournament model (`BO3Tournament`). -/
structure BO3Tournament where
  id : Int
  name : String
  slug : JVal := .null
  tier : JVal := .null
  tier_rank : JVal := .null
  prize : JVal := .null
  discipline_id : JVal := .null
  status : JVal := .null
  start_date : Option String := none
  end_date : Option String := none

/-- BO3 API prediction scores data model (`BO3PredictionScoresData`). -/
structure BO3PredictionScoresData where
  predicted_score : Rat
  proximity_factors : JVal
  closest_valid_score : JVal
  overall_proximity_factor : Rat
  neighbor_proximity_factor : Rat

/-- BO3 API AI prediction model (`BO3AIPrediction`). -/
structure BO3AIPrediction where
  id : Int
  match_id : Int
  prediction_team1_score : Int
  prediction_team2_score : Int
  prediction_winner_team_id : Int
  prediction_scores_data : BO3PredictionScoresData

/-- BO3 API betting team model (`BO3BettingTeam`). -/
structure BO3BettingTeam where
  name : String
  coeff : Rat
  active : Bool
  team_id : Int
  max_coeff : Rat
  aggrement_score : Rat

/-- BO3 API betting odds model (`BO3BettingOdds`). -/
structure BO3BettingOdds where
  provider : String
  team_1 : BO3BettingTeam
  team_2 : BO3BettingTeam
  path : JVal := .null
  markets_count : JVal := .null
  additional_markets : JVal := .null

/-- BO3 API match model (`BO3Match`). -/
structure BO3Match where
  id : Int
  slug : JVal := .null
  team1_id : JVal := .null
  team2_id : JVal := .null
  status : String := "upcoming"
  start_date : Option String := none
  bo_type : JVal := .null
  tier : JVal := .null
  team1_score : JVal := .null
  team2_score : JVal := .null
  winner_team_id : JVal := .null
  loser_team_id : JVal := .null
  tournament_id : JVal := .null
  team1 : Option BO3Team := none
  team2 : Option BO3Team := none
  tournament : Option BO3Tournament := none
  ai_predictions : Option BO3AIPrediction := none
  bet_updates : Option BO3BettingOdds := none
  raw_data : JVal := .null

/-!
## Parser — `data-ingestion/bo3-api/parser.py`

Each function mirrors its Python source line by line; an uncaught exception
is an `Except.error`.
-/

/-- Encode a carried datetime back into a payload position. -/
def encodeDate : Option String → JVal
  | some s => .str s
  | none => .null

/-- Parse ISO 8601 datetime text (`parse_datetime`): falsy input and
non-strings (whose `.endswith` raises `AttributeError`, caught) yield `none`;
a trailing `Z` — and, after that, every remaining `Z` — is rewritten to
`+00:00` before the format check. -/
def parse_datetime (date_str : JVal) : Option String :=
  match date_str with
  | .str s =>
    if s.isEmpty then none
    else
      let s1 := if s.endsWith "Z" then s.dropRight 1 ++ "+00:00" else s
      let s2 := s1.replace "Z" "+00:00"
      if isoParsable s2 then some s2 else none
  | _ => none

/-- Parse team data (`parse_team`): `None`, falsy or non-dict input and a
falsy `id` or `name` yield `none`; otherwise the coerced record. -/
def parse_team (team_data : JVal) : Except PyErr (Option BO3Team) :=
  match team_data with
  | .obj fields =>
    if !truthy (.obj fields) then .ok none
    else
      let team_id := dget fields "id"
      let name := dget fields "name"
      if !truthy team_id || !truthy name then .ok none
      else
        match pyInt team_id with
        | .error e => .error e
        | .ok i =>
          .ok (some {
            id := i
            name := pyStr name
            slug := dget fields "slug"
            country_code := dget fields "country_code"
            logo_url := dget fields "logo_url" })
  | _ => .ok none

/-- Parse tournament data (`parse_tournament`): same required-field policy as
`parse_team`. -/
def parse_tournament (tournament_data : JVal) : Except PyErr (Option BO3Tournament) :=
  match tournament_data with
  | .obj fields =>
    if !truthy (.obj fields) then .ok none
    else
      let tournament_id := dget fields "id"
      let name := dget fields "name"
      if !truthy tournament_id || !truthy name then .ok none
      else
        match pyInt tournament_id with
        | .error e => .error e
        | .ok i =>
          .ok (some {
            id := i
            name := pyStr name
            slug := dget fields "slug"
            tier := dget fields "tier"
            tier_rank := dget fields "tier_rank"
            prize := dget fields "prize"
            discipline_id := dget fields "discipline_id"
            status := dget fields "status"
            start_date := parse_datetime (dget fields "start_date")
            end_date := parse_datetime (dget fields "end_date") })
  | _ => .ok none

/-- Parse the nested scoring-proximity structure
(`parse_prediction_scores_data`): absent numeric members default to `0.0`
before coercion. -/
def parse_prediction_scores_data (scores_data : JVal) :
    Except PyErr (Option BO3PredictionScoresData) :=
  match scores_data with
  | .obj fields =>
    if !truthy (.obj fields) then .ok none
    else
      match pyFloat (dgetD fields "predicted_score" (.num 0)) with
      | .error e => .error e
      | .ok ps =>
        match pyDict (dgetD fields "proximity_factors" (.obj [])) with
        | .error e => .error e
        | .ok pf =>
          match pyList (dgetD fields "closest_valid_score" (.arr [])) with
          | .error e => .error e
          | .ok cvs =>
            match pyFloat (dgetD fields "overall_proximity_factor" (.num 0)) with
            | .error e => .error e
            | .ok opf =>
              match pyFloat (dgetD fields "neighbor_proximity_factor" (.num 0)) with
              | .error e => .error e
              | .ok npf =>
                .ok (some {
                  predicted_score := ps
                  proximity_factors := pf
                  closest_valid_score := cvs
                  overall_proximity_factor := opf
                  neighbor_proximity_factor := npf })
  | _ => .ok none

/-- Parse AI prediction data (`parse_ai_prediction`): falsy `id` or
`match_id` yields `none`; an absent or invalid scoring-proximity
sub-structure invalidates the whole record; absent numeric fields default to
`0`. -/
def parse_ai_prediction (prediction_data : JVal) :
    Except PyErr (Option BO3AIPrediction) :=
  match prediction_data with
  | .obj fields =>
    if !truthy (.obj fields) then .ok none
    else
      let prediction_id := dget fields "id"
      let match_id := dget fields "match_id"
      if !truthy prediction_id || !truthy match_id then .ok none
      else
        match parse_prediction_scores_data (dget fields "prediction_scores_data") with
        | .error e => .error e
        | .ok none => .ok none
        | .ok (some scores_data) =>
          match pyInt prediction_id with
          | .error e => .error e
          | .ok pid =>
            match pyInt match_id with
            | .error e => .error e
            | .ok mid =>
              match pyInt (dgetD fields "prediction_team1_score" (.int 0)) with
              | .error e => .error e
              | .ok t1 =>
                match pyInt (dgetD fields "prediction_team2_score" (.int 0)) with
                | .error e => .error e
                | .ok t2 =>
                  match pyInt (dgetD fields "prediction_winner_team_id" (.int 0)) with
                  | .error e => .error e
                  | .ok w =>
                    .ok (some {
                      id := pid
                      match_id := mid
                      prediction_team1_score := t1
                      prediction_team2_score := t2
                      prediction_winner_team_id := w
                      prediction_scores_data := scores_data })
  | _ => .ok none

/-- Parse betting team data (`parse_betting_team`): every numeric field
defaults to `0`/`0.0` when absent, `name` to the empty string, `active` to
`False`. -/
def parse_betting_team (team_data : JVal) : Except PyErr (Option BO3BettingTeam) :=
  match team_data with
  | .obj fields =>
    if !truthy (.obj fields) then .ok none
    else
      match pyFloat (dgetD fields "coeff" (.num 0)) with
      | .error e => .error e
      | .ok coeff =>
        match pyInt (dgetD fields "team_id" (.int 0)) with
        | .error e => .error e
        | .ok tid =>
          match pyFloat (dgetD fields "max_coeff" (.num 0)) with
          | .error e => .error e
          | .ok mc =>
            match pyFloat (dgetD fields "aggrement_score" (.num 0)) with
            | .error e => .error e
            | .ok ags =>
              .ok (some {
                name := pyStr (dgetD fields "name" (.str ""))
                coeff := coeff
                active := pyBool (dgetD fields "active" (.bool false))
                team_id := tid
                max_coeff := mc
                aggrement_score := ags })
  | _ => .ok none

/-- Parse betting odds data (`parse_betting_odds`): a falsy `provider` or
either missing team-odds sub-structure invalidates the whole record. -/
def parse_betting_odds (odds_data : JVal) : Except PyErr (Option BO3BettingOdds) :=
  match odds_data with
  | .obj fields =>
    if !truthy (.obj fields) then .ok none
    else
      let provider := dget fields "provider"
      let team_1_data := dget fields "team_1"
      let team_2_data := dget fields "team_2"
      if !truthy provider || !truthy team_1_data || !truthy team_2_data then .ok none
      else
        match parse_betting_team team_1_data with
        | .error e => .error e
        | .ok t1 =>
          match parse_betting_team team_2_data with
          | .error e => .error e
          | .ok t2 =>
            match t1, t2 with
            | some team_1, some team_2 =>
              .ok (some {
                provider := pyStr provider
                team_1 := team_1
                team_2 := team_2
                path := dget fields "path"
                markets_count := dget fields "markets_count"
                additional_markets := dget fields "additional_markets" })
            | _, _ => .ok none
  | _ => .ok none

/-- Parse a top-level match payload (`parse_match`): a falsy identity field
is a hard failure (`ValueError`), nested sub-objects degrade to `none`, and
the full raw payload is preserved on the record. -/
def parse_match (match_data : JVal) : Except PyErr BO3Match :=
  match match_data with
  | .obj fields =>
    let match_id := dget fields "id"
    if !truthy match_id then .error (.valueError "Match data must include id field")
    else
      match parse_team (dget fields "team1") with
      | .error e => .error e
      | .ok team1 =>
        match parse_team (dget fields "team2") with
        | .error e => .error e
        | .ok team2 =>
          match parse_tournament (dget fields "tournament") with
          | .error e => .error e
          | .ok tournament =>
            match parse_ai_prediction (dget fields "ai_predictions") with
            | .error e => .error e
            | .ok ai_predictions =>
              match parse_betting_odds (dget fields "bet_updates") with
              | .error e => .error e
              | .ok bet_updates =>
                let team1_id := match team1 with
                  | some t => JVal.int t.id
                  | none => dget fields "team1_id"
                let team2_id := match team2 with
                  | some t => JVal.int t.id
                  | none => dget fields "team2_id"
                let tournament_id := match tournament with
                  | some t => JVal.int t.id
                  | none => dget fields "tournament_id"
                match pyInt match_id with
                | .error e => .error e
                | .ok mid =>
                  .ok {
                    id := mid
                    slug := dget fields "slug"
                    team1_id := team1_id
                    team2_id := team2_id
                    status := pyStr (dgetD fields "status" (.str "upcoming"))
                    start_date := parse_datetime (dget fields "start_date")
                    bo_type := dget fields "bo_type"
                    tier := dget fields "tier"
                    team1_score := dget fields "team1_score"
                    team2_score := dget fields "team2_score"
                    winner_team_id := dget fields "winner_team_id"
                    loser_team_id := dget fields "loser_team_id"
                    tournament_id := tournament_id
                    team1 := team1
                    team2 := team2
                    tournament := tournament
                    ai_predictions := ai_predictions
                    bet_updates := bet_updates
                    raw_data := .obj fields }
  | _ => .error .attributeError

/-!
## Mutation layer — `data-storage/mutations/bo3_mutations.py`

Pure transforms from typed models to storage-ready field sets.  A returned
Python dict with fixed keys is a Lean structure with those fields; the
`metadata`/`prediction_data`/`odds_data` blobs duplicate the model fields
one for one, so they are carried as the model value itself.
-/

/-- Source-type tag of the BO3 mutation (`BO3Mutation.SOURCE_TYPE`). -/
def SOURCE_TYPE : String := "bo3"

/-- Storage-ready team field set (the dict returned by `to_team_dict`). -/
structure TeamDict where
  source_type : String
  source_id : Int
  name : String
  slug : JVal
  country_code : JVal
  logo_url : JVal
  metadata : BO3Team

/-- Convert `BO3Team` to the database team dictionary (`to_team_dict`). -/
def to_team_dict (team_data : BO3Team) : TeamDict where
  source_type := SOURCE_TYPE
  source_id := team_data.id
  name := team_data.name
  slug := team_data.slug
  country_code := team_data.country_code
  logo_url := team_data.logo_url
  metadata := team_data

/-- Storage-ready tournament field set (the dict returned by
`to_tournament_dict`). -/
structure TournamentDict where
  source_type : String
  source_id : Int
  name : String
  slug : JVal
  tier : JVal
  tier_rank : JVal
  prize_pool : JVal
  discipline_id : JVal
  status : JVal
  start_date : Option String
  end_date : Option String
  metadata : BO3Tournament

/-- Convert `BO3Tournament` to the database tournament dictionary
(`to_tournament_dict`); the metadata blob carries the dates as their ISO
text, which is how this embedding stores datetimes anyway. -/
def to_tournament_dict (tournament_data : BO3Tournament) : TournamentDict where
  source_type := SOURCE_TYPE
  source_id := tournament_data.id
  name := tournament_data.name
  slug := tournament_data.slug
  tier := tournament_data.tier
  tier_rank := tournament_data.tier_rank
  prize_pool := tournament_data.prize
  discipline_id := tournament_data.discipline_id
  status := tournament_data.status
  start_date := tournament_data.start_date
  end_date := tournament_data.end_date
  metadata := tournament_data

/-- The raw fallback dict built by `_match_to_raw_dict` when the parsed
match carries no preserved payload. -/
def match_to_raw_dict (match_data : BO3Match) : JVal :=
  .obj [
    ("id", .int match_data.id),
    ("slug", match_data.slug),
    ("team1_id", match_data.team1_id),
    ("team2_id", match_data.team2_id),
    ("status", .str match_data.status),
    ("start_date", encodeDate match_data.start_date),
    ("bo_type", match_data.bo_type),
    ("tier", match_data.tier),
    ("team1_score", match_data.team1_score),
    ("team2_score", match_data.team2_score),
    ("winner_team_id", match_data.winner_team_id),
    ("loser_team_id", match_data.loser_team_id),
    ("tournament_id", match_data.tournament_id)]

/-- Storage-ready match field set (the dict returned by `to_match_dict`).
The fields prefixed `_` in the Python dict — the unresolved team/tournament
sub-records and their source-side ids — are the side-channel the coordinator
pops off before writing. -/
structure MatchDict where
  source_type : String
  source_id : Int
  slug : JVal
  status : String
  start_date : Option String
  bo_type : JVal
  tier : JVal
  team1_score : JVal
  team2_score : JVal
  winner_team_id : JVal
  loser_team_id : JVal
  raw_data : JVal
  team1 : Option BO3Team
  team2 : Option BO3Team
  tournament : Option BO3Tournament
  team1_id : JVal
  team2_id : JVal
  tournament_id : JVal

/-- Convert `BO3Match` to the database match dictionary (`to_match_dict`). -/
def to_match_dict (match_data : BO3Match) : MatchDict where
  source_type := SOURCE_TYPE
  source_id := match_data.id
  slug := match_data.slug
  status := match_data.status
  start_date := match_data.start_date
  bo_type := match_data.bo_type
  tier := match_data.tier
  team1_score := match_data.team1_score
  team2_score := match_data.team2_score
  winner_team_id := match_data.winner_team_id
  loser_team_id := match_data.loser_team_id
  raw_data :=
    if truthy match_data.raw_data then match_data.raw_data
    else match_to_raw_dict match_data
  team1 := match_data.team1
  team2 := match_data.team2
  tournament := match_data.tournament
  team1_id := match match_data.team1 with
    | some t => JVal.int t.id
    | none => match_data.team1_id
  team2_id := match match_data.team2 with
    | some t => JVal.int t.id
    | none => match_data.team2_id
  tournament_id := match match_data.tournament with
    | some t => JVal.int t.id
    | none => match_data.tournament_id

/-- Storage-ready AI-prediction field set (the dict returned by
`to_ai_prediction_dict`); internal match ids are `Nat` (UUIDs are assigned
sequentially in this embedding). -/
structure PredDict where
  match_id : Nat
  source_type : String
  source_id : Int
  prediction_data : BO3AIPrediction

/-- Convert `BO3AIPrediction` to the database prediction dictionary
(`to_ai_prediction_dict`); the `prediction_data` blob duplicates the model
fields verbatim. -/
def to_ai_prediction_dict (prediction_data : BO3AIPrediction) (match_id : Nat) :
    PredDict where
  match_id := match_id
  source_type := SOURCE_TYPE
  source_id := prediction_data.id
  prediction_data := prediction_data

/-- Storage-ready betting-odds field set (the dict returned by
`to_betting_odds_dict`). -/
structure OddsDict where
  match_id : Nat
  source_type : String
  provider : String
  team1_odds : Rat
  team2_odds : Rat
  team1_implied_prob : Option Rat
  team2_implied_prob : Option Rat
  odds_data : BO3BettingOdds

/-- Convert `BO3BettingOdds` to the database odds dictionary
(`to_betting_odds_dict`): the implied probability of a side is `1.0 / coeff`
when the coefficient is truthy (nonzero), else `None`. -/
def to_betting_odds_dict (odds_data : BO3BettingOdds) (match_id : Nat) :
    OddsDict where
  match_id := match_id
  source_type := SOURCE_TYPE
  provider := odds_data.provider
  team1_odds := odds_data.team_1.coeff
  team2_odds := odds_data.team_2.coeff
  team1_implied_prob :=
    if odds_data.team_1.coeff != 0 then some (1 / odds_data.team_1.coeff) else none
  team2_implied_prob :=
    if odds_data.team_2.coeff != 0 then some (1 / odds_data.team_2.coeff) else none
  odds_data := odds_data

/-!
## Relational store — schema rows and database state

One record per table of the schema (`teams`, `tournaments`, `matches`,
`ai_predictions`, `betting_odds`).  Columns that `update_match` may
overwrite with arbitrary dict values are carried as raw `JVal`; internal ids
are sequential `Nat`; timestamps are ticks of the `now` counter.
-/

/-- A row of the `teams` table. -/
structure TeamRow where
  id : Nat
  source_type : String
  source_id : Int
  name : String
  slug : JVal
  country_code : JVal
  logo_url : JVal
  metadata : BO3Team

/-- A row of the `tournaments` table. -/
structure TournamentRow where
  id : Nat
  source_type : String
  source_id : Int
  name : String
  slug : JVal
  tier : JVal
  tier_rank : JVal
  prize_pool : JVal
  discipline_id : JVal
  status : JVal
  start_date : Option String
  end_date : Option String
  metadata : BO3Tournament

/-- A row of the `matches` table.  The insert path stringifies winner/loser
references (`str(...) if ... else None`), and `update_match` may write any
dict value into the mutable columns, so those columns are raw `JVal`. -/
structure MatchRow where
  id : Nat
  source_type : String
  source_id : Int
  slug : JVal
  team1_id : Nat
  team2_id : Nat
  tournament_id : Option Nat
  status : JVal
  start_date : Option String
  bo_type : JVal
  tier : JVal
  team1_score : JVal
  team2_score : JVal
  winner_team_id : JVal
  loser_team_id : JVal
  raw_data : JVal
  created_at : Nat
  updated_at : Option Nat
  last_fetched_at : Option Nat

/-- A row of the `ai_predictions` table. -/
structure PredRow where
  id : Nat
  match_id : Nat
  source_type : String
  source_id : Int
  prediction_data : BO3AIPrediction
  created_at : Nat
  updated_at : Option Nat

/-- A row of the `betting_odds` table. -/
structure OddsRow where
  id : Nat
  match_id : Nat
  source_type : String
  provider : String
  team1_odds : Rat
  team2_odds : Rat
  team1_implied_prob : Option Rat
  team2_implied_prob : Option Rat
  odds_data : BO3BettingOdds
  created_at : Nat
  updated_at : Option Nat
  fetched_at : Option Nat

/-- The durable store: the five tables, the sequential id generator standing
in for UUID assignment, and the `now` tick standing in for `NOW()` /
`datetime.utcnow()`. -/
structure DB where
  teams : List TeamRow := []
  tournaments : List TournamentRow := []
  matches_ : List MatchRow := []
  ai_predictions : List PredRow := []
  betting_odds : List OddsRow := []
  next_id : Nat := 0
  now : Nat := 0

/-!
## Session machinery — `storage_service.py`

Every top-level call opens a session over the durable store.  `committed` is
the durable snapshot, `pending` the session view including uncommitted
writes, `stmts` counts executed SQL statements and commits.  A
persistence-layer fault is injected when the step counter reaches `failAt`;
the raised error carries the committed snapshot, which is what
`session.rollback()` restores on every handler path.  `failAt = none` is a
fault-free run.
-/

/-- Session state for one storage-service call. -/
structure PState where
  committed : DB
  pending : DB
  stmts : Nat

/-- Result of a storage step: either the next session state, or a raised
exception together with the durable snapshot the enclosing rollback
restores. -/
abbrev StorageM (α : Type) := Except (PyErr × DB) α

/-- Execute one SQL statement: the injection point for persistence-layer
faults. -/
def dbStep (failAt : Option Nat) (s : PState) : StorageM PState :=
  if failAt == some s.stmts then .error (.dbError, s.committed)
  else .ok { s with stmts := s.stmts + 1 }

/-- Execute `session.commit()`: on success the pending view becomes durable;
a fault raised during the commit leaves the previous snapshot durable. -/
def dbCommit (failAt : Option Nat) (s : PState) : StorageM PState :=
  if failAt == some s.stmts then .error (.dbError, s.committed)
  else .ok { stmts := s.stmts + 1, committed := s.pending, pending := s.pending }

/-- Lookup predicate of the `(source_type, source_id)` identity key on
`teams`. -/
def teamKey (source_type : String) (source_id : Int) (r : TeamRow) : Bool :=
  r.source_type == source_type && r.source_id == source_id

/-- Lookup predicate of the `(source_type, source_id)` identity key on
`tournaments`. -/
def tournamentKey (source_type : String) (source_id : Int) (r : TournamentRow) : Bool :=
  r.source_type == source_type && r.source_id == source_id

/-- Lookup predicate of the `(source_type, source_id)` identity key on
`matches`. -/
def matchKey (source_type : String) (source_id : Int) (r : MatchRow) : Bool :=
  r.source_type == source_type && r.source_id == source_id

/-- Get or create a team within the enclosing session
(`_get_or_create_team_from_model`): look up by `(source_type, source_id)`;
if found, return the existing internal id *without touching the row*;
otherwise insert a new row from the mutation dict and commit immediately. -/
def get_or_create_team_from_model (failAt : Option Nat) (team_data : BO3Team)
    (source_type : String) (s : PState) : StorageM (Nat × PState) :=
  let team_dict := to_team_dict team_data
  match dbStep failAt s with
  | .error e => .error e
  | .ok s =>
    match s.pending.teams.find? (teamKey source_type team_dict.source_id) with
    | some existing => .ok (existing.id, s)
    | none =>
      match dbStep failAt s with
      | .error e => .error e
      | .ok s =>
        let row : TeamRow := {
          id := s.pending.next_id
          source_type := team_dict.source_type
          source_id := team_dict.source_id
          name := team_dict.name
          slug := team_dict.slug
          country_code := team_dict.country_code
          logo_url := team_dict.logo_url
          metadata := team_dict.metadata }
        let s := { s with pending := { s.pending with
          teams := s.pending.teams ++ [row]
          next_id := s.pending.next_id + 1 } }
        match dbCommit failAt s with
        | .error e => .error e
        | .ok s => .ok (row.id, s)

/-- Get or create a tournament within the enclosing session
(`_get_or_create_tournament_from_model`). -/
def get_or_create_tournament_from_model (failAt : Option Nat)
    (tournament_data : BO3Tournament) (source_type : String) (s : PState) :
    StorageM (Nat × PState) :=
  let tournament_dict := to_tournament_dict tournament_data
  match dbStep failAt s with
  | .error e => .error e
  | .ok s =>
    match s.pending.tournaments.find? (tournamentKey source_type tournament_dict.source_id) with
    | some existing => .ok (existing.id, s)
    | none =>
      match dbStep failAt s with
      | .error e => .error e
      | .ok s =>
        let row : TournamentRow := {
          id := s.pending.next_id
          source_type := tournament_dict.source_type
          source_id := tournament_dict.source_id
          name := tournament_dict.name
          slug := tournament_dict.slug
          tier := tournament_dict.tier
          tier_rank := tournament_dict.tier_rank
          prize_pool := tournament_dict.prize_pool
          discipline_id := tournament_dict.discipline_id
          status := tournament_dict.status
          start_date := tournament_dict.start_date
          end_date := tournament_dict.end_date
          metadata := tournament_dict.metadata }
        let s := { s with pending := { s.pending with
          tournaments := s.pending.tournaments ++ [row]
          next_id := s.pending.next_id + 1 } }
        match dbCommit failAt s with
        | .error e => .error e
        | .ok s => .ok (row.id, s)

/-- The fixed allow-list `update_match` matches keys against before building
its `SET` clause (`raw_data` is handled by its own branch with the same
effect). -/
def UPDATE_MATCH_KEYS : List String :=
  ["team1_score", "team2_score", "status", "winner_team_id", "loser_team_id"]

/-- Apply one recognized `SET` assignment to a match row; an unrecognized
key contributes nothing. -/
def applyMatchUpd (r : MatchRow) (k : String) (v : JVal) : MatchRow :=
  if k == "team1_score" then { r with team1_score := v }
  else if k == "team2_score" then { r with team2_score := v }
  else if k == "status" then { r with status := v }
  else if k == "winner_team_id" then { r with winner_team_id := v }
  else if k == "loser_team_id" then { r with loser_team_id := v }
  else if k == "raw_data" then { r with raw_data := v }
  else r

/-- The sub-list of update entries whose key survives the allow-list
filter. -/
def recognizedUpds (updates : List (String × JVal)) : List (String × JVal) :=
  updates.filter (fun kv => UPDATE_MATCH_KEYS.contains kv.1 || kv.1 == "raw_data")

/-- Stamp the `updated_at = NOW(), last_fetched_at = NOW()` markers. -/
def stampRow (r : MatchRow) (now : Nat) : MatchRow :=
  { r with updated_at := some now, last_fetched_at := some now }

/-- Update a match with new data (`update_match`): build `SET` clauses only
for allow-listed keys; return before touching the database when none is
recognized; otherwise execute one `UPDATE` stamping both timestamp markers,
and commit.  Runs in its own session in the source, so it commits its own
unit of work. -/
def update_match (failAt : Option Nat) (match_id : Nat)
    (updates : List (String × JVal)) (s : PState) : StorageM PState :=
  if (recognizedUpds updates).isEmpty then .ok s
  else
    match dbStep failAt s with
    | .error e => .error e
    | .ok s =>
      let s := { s with pending := { s.pending with
        matches_ := s.pending.matches_.map (fun r =>
          if r.id == match_id then
            stampRow ((recognizedUpds updates).foldl
              (fun r kv => applyMatchUpd r kv.1 kv.2) r) s.pending.now
          else r) } }
      dbCommit failAt s

/-- Stringification the match insert applies to winner/loser references:
`str(x) if x else None`. -/
def strOrNull (v : JVal) : JVal :=
  if truthy v then .str (pyStr v) else .null

/-- The update dictionary `save_match` hands to `update_match`: the mutation
dict in insertion order after `_team1`/`_team2`/`_tournament` were popped
off.  Only the allow-listed entries take effect. -/
def matchUpdDict (md : MatchDict) : List (String × JVal) :=
  [("source_type", .str md.source_type),
   ("source_id", .int md.source_id),
   ("slug", md.slug),
   ("status", .str md.status),
   ("start_date", encodeDate md.start_date),
   ("bo_type", md.bo_type),
   ("tier", md.tier),
   ("team1_score", md.team1_score),
   ("team2_score", md.team2_score),
   ("winner_team_id", md.winner_team_id),
   ("loser_team_id", md.loser_team_id),
   ("raw_data", md.raw_data),
   ("_team1_id", md.team1_id),
   ("_team2_id", md.team2_id),
   ("_tournament_id", md.tournament_id)]

/-- The body of `save_match` running inside its session: convert the typed
model, reject when either team sub-record is absent, resolve teams (and the
tournament when present) strictly before the match lookup, then update the
existing match in place or insert a new row. -/
def save_matchAux (failAt : Option Nat) (match_data : BO3Match) (s : PState) :
    StorageM (Nat × PState) :=
  let match_dict := to_match_dict match_data
  let source_type := match_dict.source_type
  let source_id := match_dict.source_id
  match match_dict.team1, match_dict.team2 with
  | some team1_data, some team2_data =>
    match get_or_create_team_from_model failAt team1_data source_type s with
    | .error e => .error e
    | .ok (team1_id, s) =>
      match get_or_create_team_from_model failAt team2_data source_type s with
      | .error e => .error e
      | .ok (team2_id, s) =>
        let step3 : StorageM (Option Nat × PState) :=
          match match_dict.tournament with
          | some tournament_data =>
            match get_or_create_tournament_from_model failAt tournament_data source_type s with
            | .error e => .error e
            | .ok (tid, s) => .ok (some tid, s)
          | none => .ok (none, s)
        match step3 with
        | .error e => .error e
        | .ok (tournament_id, s) =>
          match dbStep failAt s with
          | .error e => .error e
          | .ok s =>
            match s.pending.matches_.find? (matchKey source_type source_id) with
            | some existing =>
              match update_match failAt existing.id (matchUpdDict match_dict) s with
              | .error e => .error e
              | .ok s => .ok (existing.id, s)
            | none =>
              match dbStep failAt s with
              | .error e => .error e
              | .ok s =>
                let row : MatchRow := {
                  id := s.pending.next_id
                  source_type := source_type
                  source_id := source_id
                  slug := match_dict.slug
                  team1_id := team1_id
                  team2_id := team2_id
                  tournament_id := tournament_id
                  status := .str match_dict.status
                  start_date := match_dict.start_date
                  bo_type := match_dict.bo_type
                  tier := match_dict.tier
                  team1_score := match_dict.team1_score
                  team2_score := match_dict.team2_score
                  winner_team_id := strOrNull match_dict.winner_team_id
                  loser_team_id := strOrNull match_dict.loser_team_id
                  raw_data := match_dict.raw_data
                  created_at := s.pending.now
                  updated_at := none
                  last_fetched_at := some s.pending.now }
                let s := { s with pending := { s.pending with
                  matches_ := s.pending.matches_ ++ [row]
                  next_id := s.pending.next_id + 1 } }
                match dbCommit failAt s with
                | .error e => .error e
                | .ok s => .ok (row.id, s)
  | _, _ => .error (.valueError "Match must have team1 and team2 data", s.committed)

/-- Save a match (`save_match`): open a session over the durable store, run
the body, and on any raised error roll back the session and re-raise —
the call returns the raised error together with the snapshot the store is
left in. -/
def save_match (failAt : Option Nat) (db : DB) (match_data : BO3Match) :
    Except PyErr Nat × DB :=
  match save_matchAux failAt match_data ⟨db, db, 0⟩ with
  | .ok (i, s) => (.ok i, s.committed)
  | .error (e, c) => (.error e, c)

/-- Lookup predicate of the `(match_id, source_type)` identity key on
`ai_predictions`. -/
def predKey (match_id : Nat) (source_type : String) (r : PredRow) : Bool :=
  r.match_id == match_id && r.source_type == source_type

/-- The body of `save_ai_prediction`: look up by `(match_id, source_type)`;
if present, overwrite `prediction_data` and `source_id` and touch
`updated_at`; otherwise insert. -/
def save_ai_predictionAux (failAt : Option Nat) (match_id : Nat)
    (prediction_data : BO3AIPrediction) (s : PState) : StorageM (Nat × PState) :=
  let prediction_dict := to_ai_prediction_dict prediction_data match_id
  let source_type := prediction_dict.source_type
  let source_id := prediction_dict.source_id
  match dbStep failAt s with
  | .error e => .error e
  | .ok s =>
    match s.pending.ai_predictions.find? (predKey match_id source_type) with
    | some existing =>
      match dbStep failAt s with
      | .error e => .error e
      | .ok s =>
        let s := { s with pending := { s.pending with
          ai_predictions := s.pending.ai_predictions.map (fun r =>
            if r.id == existing.id then
              { r with
                prediction_data := prediction_dict.prediction_data
                source_id := source_id
                updated_at := some s.pending.now }
            else r) } }
        match dbCommit failAt s with
        | .error e => .error e
        | .ok s => .ok (existing.id, s)
    | none =>
      match dbStep failAt s with
      | .error e => .error e
      | .ok s =>
        let row : PredRow := {
          id := s.pending.next_id
          match_id := match_id
          source_type := source_type
          source_id := source_id
          prediction_data := prediction_dict.prediction_data
          created_at := s.pending.now
          updated_at := none }
        let s := { s with pending := { s.pending with
          ai_predictions := s.pending.ai_predictions ++ [row]
          next_id := s.pending.next_id + 1 } }
        match dbCommit failAt s with
        | .error e => .error e
        | .ok s => .ok (row.id, s)

/-- Save an AI prediction (`save_ai_prediction`): session wrapper with
rollback-and-re-raise on failure. -/
def save_ai_prediction (failAt : Option Nat) (db : DB) (match_id : Nat)
    (prediction_data : BO3AIPrediction) : Except PyErr Nat × DB :=
  match save_ai_predictionAux failAt match_id prediction_data ⟨db, db, 0⟩ with
  | .ok (i, s) => (.ok i, s.committed)
  | .error (e, c) => (.error e, c)

/-- Lookup predicate of the `(match_id, source_type, provider)` identity key
on `betting_odds`. -/
def oddsKey (match_id : Nat) (source_type : String) (provider : String)
    (r : OddsRow) : Bool :=
  r.match_id == match_id && r.source_type == source_type && r.provider == provider

/-- The body of `save_betting_odds`: look up by
`(match_id, source_type, provider)`; if present, overwrite the odds payload
fields and touch `updated_at` and `fetched_at`; otherwise insert. -/
def save_betting_oddsAux (failAt : Option Nat) (match_id : Nat)
    (odds_data : BO3BettingOdds) (s : PState) : StorageM (Nat × PState) :=
  let odds_dict := to_betting_odds_dict odds_data match_id
  let source_type := odds_dict.source_type
  let provider := odds_dict.provider
  match dbStep failAt s with
  | .error e => .error e
  | .ok s =>
    match s.pending.betting_odds.find? (oddsKey match_id source_type provider) with
    | some existing =>
      match dbStep failAt s with
      | .error e => .error e
      | .ok s =>
        let s := { s with pending := { s.pending with
          betting_odds := s.pending.betting_odds.map (fun r =>
            if r.id == existing.id then
              { r with
                team1_odds := odds_dict.team1_odds
                team2_odds := odds_dict.team2_odds
                team1_implied_prob := odds_dict.team1_implied_prob
                team2_implied_prob := odds_dict.team2_implied_prob
                odds_data := odds_dict.odds_data
                updated_at := some s.pending.now
                fetched_at := some s.pending.now }
            else r) } }
        match dbCommit failAt s with
        | .error e => .error e
        | .ok s => .ok (existing.id, s)
    | none =>
      match dbStep failAt s with
      | .error e => .error e
      | .ok s =>
        let row : OddsRow := {
          id := s.pending.next_id
          match_id := match_id
          source_type := source_type
          provider := provider
          team1_odds := odds_dict.team1_odds
          team2_odds := odds_dict.team2_odds
          team1_implied_prob := odds_dict.team1_implied_prob
          team2_implied_prob := odds_dict.team2_implied_prob
          odds_data := odds_dict.odds_data
          created_at := s.pending.now
          updated_at := none
          fetched_at := some s.pending.now }
        let s := { s with pending := { s.pending with
          betting_odds := s.pending.betting_odds ++ [row]
          next_id := s.pending.next_id + 1 } }
        match dbCommit failAt s with
        | .error e => .error e
        | .ok s => .ok (row.id, s)

/-- Save betting odds (`save_betting_odds`): session wrapper with
rollback-and-re-raise on failure. -/
def save_betting_odds (failAt : Option Nat) (db : DB) (match_id : Nat)
    (odds_data : BO3BettingOdds) : Except PyErr Nat × DB :=
  match save_betting_oddsAux failAt match_id odds_data ⟨db, db, 0⟩ with
  | .ok (i, s) => (.ok i, s.committed)
  | .error (e, c) => (.error e, c)

/-- Run `update_match` as the top-level call it is in the source (its own
session over the durable store), fault-free. -/
def update_match_run (db : DB) (match_id : Nat)
    (updates : List (String × JVal)) : DB :=
  match update_match none match_id updates ⟨db, db, 0⟩ with
  | .ok s => s.committed
  | .error _ => db

/-- Last value associated to a key in an update dictionary — what a SQL
`SET` clause with bound parameters leaves in the column when the key occurs
(Python dicts cannot repeat a key; for lists the last binding wins). -/
def lastVal (updates : List (String × JVal)) (k : String) : Option JVal :=
  (updates.reverse.find? (fun kv => kv.1 == k)).map (fun kv => kv.2)

/-- Referential integrity of match rows: every match row's team references,
and its tournament reference when present, resolve to existing rows. -/
def MatchWF (db : DB) : Prop :=
  ∀ mr ∈ db.matches_,
    (∃ tr ∈ db.teams, tr.id = mr.team1_id) ∧
    (∃ tr ∈ db.teams, tr.id = mr.team2_id) ∧
    (∀ tid, mr.tournament_id = some tid → ∃ tr ∈ db.tournaments, tr.id = tid)

/-!
## Concrete fixtures used by witnesses and counterexamples
-/

/-- Fixture team 736. -/
def teamW1 : BO3Team := { id := 736, name := "NAVI" }

/-- Fixture team 7631. -/
def teamW2 : BO3Team := { id := 7631, name := "Spirit" }

/-- Fixture tournament 3578. -/
def tournW : BO3Tournament := { id := 3578, name := "Major" }

/-- Fixture match 103084 with embedded team and tournament sub-records. -/
def matchW : BO3Match :=
  { id := 103084, team1 := some teamW1, team2 := some teamW2,
    tournament := some tournW }

/-- The durable store the fixture match leaves behind when saved into an
empty store without faults. -/
def dbW1 : DB := (save_match none {} matchW).2

/-- Fixture betting odds: side one at coefficient 2, side two at 0. -/
def oddsW : BO3BettingOdds :=
  { provider := "bet365"
    team_1 := { name := "NAVI", coeff := 2, active := true, team_id := 736,
                max_coeff := 2, aggrement_score := 0 }
    team_2 := { name := "Spirit", coeff := 0, active := false, team_id := 7631,
                max_coeff := 0, aggrement_score := 0 } }

/-- Fixture odds from a second provider. -/
def oddsW2 : BO3BettingOdds :=
  { provider := "pinnacle"
    team_1 := { name := "NAVI", coeff := 3, active := true, team_id := 736,
                max_coeff := 3, aggrement_score := 0 }
    team_2 := { name := "Spirit", coeff := 3, active := true, team_id := 7631,
                max_coeff := 3, aggrement_score := 0 } }

/-- The betting-team record the parser produces from a payload that has only
a `team_id`. -/
def betTeamW : BO3BettingTeam :=
  { name := "", coeff := 0, active := false, team_id := 3, max_coeff := 0,
    aggrement_score := 0 }

/-- Fixture prediction proximity data. -/
def scoresW : BO3PredictionScoresData :=
  { predicted_score := 1, proximity_factors := .obj [],
    closest_valid_score := .arr [], overall_proximity_factor := 1,
    neighbor_proximity_factor := 0 }

/-- Fixture AI prediction. -/
def predW : BO3AIPrediction :=
  { id := 55, match_id := 103084, prediction_team1_score := 2,
    prediction_team2_score := 1, prediction_winner_team_id := 736,
    prediction_scores_data := scoresW }

/-- Fixture prediction payload with no numeric prediction fields. -/
def pfW : List (String × JVal) :=
  [("id", .int 55), ("match_id", .int 103084),
   ("prediction_scores_data", .obj [("predicted_score", .num 1)])]

/-- The record `pfW` parses to: every absent numeric field became `0`. -/
def predParsedW : BO3AIPrediction :=
  { id := 55, match_id := 103084, prediction_team1_score := 0,
    prediction_team2_score := 0, prediction_winner_team_id := 0,
    prediction_scores_data :=
      { predicted_score := 1, proximity_factors := .obj [],
        closest_valid_score := .arr [], overall_proximity_factor := 0,
        neighbor_proximity_factor := 0 } }

/-- The record a bare match payload `[("id", 103084)]` parses to. -/
def matchParsedW : BO3Match :=
  { id := 103084, raw_data := .obj [("id", .int 103084)] }

/-- The tuple of match-row fields outside the `update_match` allow-list and
timestamp stamps — the frame an update must leave unchanged. -/
def rowFrame (r : MatchRow) :=
  (r.id, r.source_type, r.source_id, r.slug, r.team1_id, r.team2_id,
   r.tournament_id, r.start_date, r.bo_type, r.tier, r.created_at)

/-- The team row `_get_or_create_team_from_model` inserts for a model on the
fresh path, at a given internal id. -/
def teamRowOf (t : BO3Team) (i : Nat) : TeamRow :=
  { id := i, source_type := SOURCE_TYPE, source_id := t.id, name := t.name,
    slug := t.slug, country_code := t.country_code, logo_url := t.logo_url,
    metadata := t }

/-- The tournament row `_get_or_create_tournament_from_model` inserts on the
fresh path. -/
def tournamentRowOf (t : BO3Tournament) (i : Nat) : TournamentRow :=
  { id := i, source_type := SOURCE_TYPE, source_id := t.id, name := t.name,
    slug := t.slug, tier := t.tier, tier_rank := t.tier_rank,
    prize_pool := t.prize, discipline_id := t.discipline_id,
    status := t.status, start_date := t.start_date, end_date := t.end_date,
    metadata := t }

/-- Run `_get_or_create_team_from_model` as one fault-free session of its
own over the durable store. -/
def get_or_create_team_run (db : DB) (team_data : BO3Team)
    (source_type : String) : Nat × DB :=
  match get_or_create_team_from_model none team_data source_type ⟨db, db, 0⟩ with
  | .ok (i, s) => (i, s.committed)
  | .error _ => (0, db)

/-- The durable store `update_match` leaves behind when it applies at least
one recognized field. -/
def updDB (db : DB) (match_id : Nat) (updates : List (String × JVal)) : DB :=
  { db with matches_ := db.matches_.map (fun r =>
      if r.id == match_id then
        stampRow ((recognizedUpds updates).foldl
          (fun r kv => applyMatchUpd r kv.1 kv.2) r) db.now
      else r) }

/-- The match row the insert path of `save_match` writes, given the resolved
team/tournament internal ids, the assigned id and the clock. -/
def insMatchRow (md : MatchDict) (team1_id team2_id : Nat)
    (tournament_id : Option Nat) (i : Nat) (now : Nat) : MatchRow :=
  { id := i, source_type := md.source_type, source_id := md.source_id,
    slug := md.slug, team1_id := team1_id, team2_id := team2_id,
    tournament_id := tournament_id, status := .str md.status,
    start_date := md.start_date, bo_type := md.bo_type, tier := md.tier,
    team1_score := md.team1_score, team2_score := md.team2_score,
    winner_team_id := strOrNull md.winner_team_id,
    loser_team_id := strOrNull md.loser_team_id, raw_data := md.raw_data,
    created_at := now, updated_at := none, last_fetched_at := some now }

/-- The prediction row the insert path of `save_ai_prediction` writes. -/
def predRowOf (pd : PredDict) (i : Nat) (now : Nat) : PredRow :=
  { id := i, match_id := pd.match_id, source_type := pd.source_type,
    source_id := pd.source_id, prediction_data := pd.prediction_data,
    created_at := now, updated_at := none }

/-- The odds row the insert path of `save_betting_odds` writes. -/
def oddsRowOf (od : OddsDict) (i : Nat) (now : Nat) : OddsRow :=
  { id := i, match_id := od.match_id, source_type := od.source_type,
    provider := od.provider, team1_odds := od.team1_odds,
    team2_odds := od.team2_odds, team1_implied_prob := od.team1_implied_prob,
    team2_implied_prob := od.team2_implied_prob, odds_data := od.odds_data,
    created_at := now, updated_at := none, fetched_at := some now }

/-- The store after `save_ai_prediction` overwrites the existing row. -/
def updPredDB (db : DB) (i : Nat) (p : BO3AIPrediction) : DB :=
  { db with ai_predictions := db.ai_predictions.map (fun r =>
      if r.id == i then
        { r with
          prediction_data := p
          source_id := p.id
          updated_at := some db.now }
      else r) }

/-- The store after `save_betting_odds` overwrites the existing row. -/
def updOddsDB (db : DB) (i : Nat) (od : OddsDict) : DB :=
  { db with betting_odds := db.betting_odds.map (fun r =>
      if r.id == i then
        { r with
          team1_odds := od.team1_odds
          team2_odds := od.team2_odds
          team1_implied_prob := od.team1_implied_prob
          team2_implied_prob := od.team2_implied_prob
          odds_data := od.odds_data
          updated_at := some db.now
          fetched_at := some db.now }
      else r) }

/-!
## Helper lemmas
-/

theorem dget_eq_null_of_hasKey_eq_false {fields : List (String × JVal)}
    {k : String} (h : hasKey fields k = false) : dget fields k = .null := by
  unfold hasKey at h
  unfold dget
  cases hf : fields.find? (fun kv => kv.1 == k) with
  | none => rfl
  | some kv => rw [hf] at h; simp at h

theorem dgetD_eq_dflt_of_hasKey_eq_false {fields : List (String × JVal)}
    {k : String} {dflt : JVal} (h : hasKey fields k = false) :
    dgetD fields k dflt = dflt := by
  unfold hasKey at h
  unfold dgetD
  cases hf : fields.find? (fun kv => kv.1 == k) with
  | none => rfl
  | some kv => rw [hf] at h; simp at h

theorem find?_filter_of_imp {α : Type} (p q : α → Bool) (L : List α)
    (h : ∀ x, p x = true → q x = true) :
    (L.filter q).find? p = L.find? p := by
  induction L with
  | nil => rfl
  | cons x L ih =>
    by_cases hq : q x
    · rw [List.filter_cons_of_pos hq]
      by_cases hp : p x
      · simp [List.find?_cons_of_pos, hp]
      · rw [List.find?_cons_of_neg _ (by simp [hp]),
          List.find?_cons_of_neg _ (by simp [hp]), ih]
    · rw [List.filter_cons_of_neg (by simp [hq])]
      have hp : p x = false := by
        cases hpx : p x
        · rfl
        · exact absurd (h x hpx) (by simp [hq])
      rw [List.find?_cons_of_neg _ (by simp [hp]), ih]

theorem find?_append_some {α : Type} {p : α → Bool} {l₁ : List α}
    (l₂ : List α) {x : α} (h : l₁.find? p = some x) :
    (l₁ ++ l₂).find? p = some x := by
  induction l₁ with
  | nil => simp at h
  | cons y l ih =>
    rw [List.cons_append]
    by_cases hp : p y
    · rw [List.find?_cons_of_pos _ hp] at h
      rw [List.find?_cons_of_pos _ hp]
      exact h
    · rw [List.find?_cons_of_neg _ hp] at h
      rw [List.find?_cons_of_neg _ hp]
      exact ih h

theorem find?_append_none {α : Type} {p : α → Bool} {l₁ : List α}
    (l₂ : List α) (h : l₁.find? p = none) :
    (l₁ ++ l₂).find? p = l₂.find? p := by
  induction l₁ with
  | nil => simp
  | cons y l ih =>
    rw [List.cons_append]
    by_cases hp : p y
    · rw [List.find?_cons_of_pos _ hp] at h
      simp at h
    · rw [List.find?_cons_of_neg _ hp] at h
      rw [List.find?_cons_of_neg _ hp]
      exact ih h

/-!
## C5 — implied probabilities in the odds mutation
-/

/-- C5: the odds-to-storage mapping computes the implied probability of each
side as `1 / coeff` when that side's coefficient is truthy (nonzero), and as
absent when the coefficient is zero; a coefficient of `2.0` yields implied
probability `0.5`; and a payload whose coefficient is absent parses to
coefficient `0`, hence to an absent implied probability downstream. -/
theorem implied_probability_spec (odds_data : BO3BettingOdds) (match_id : Nat)
    (fields : List (String × JVal)) :
    (odds_data.team_1.coeff ≠ 0 →
      (to_betting_odds_dict odds_data match_id).team1_implied_prob
        = some (1 / odds_data.team_1.coeff))
  ∧ (odds_data.team_1.coeff = 0 →
      (to_betting_odds_dict odds_data match_id).team1_implied_prob = none)
  ∧ (odds_data.team_2.coeff ≠ 0 →
      (to_betting_odds_dict odds_data match_id).team2_implied_prob
        = some (1 / odds_data.team_2.coeff))
  ∧ (odds_data.team_2.coeff = 0 →
      (to_betting_odds_dict odds_data match_id).team2_implied_prob = none)
  ∧ (odds_data.team_1.coeff = 2 →
      (to_betting_odds_dict odds_data match_id).team1_implied_prob
        = some (1 / 2))
  ∧ (hasKey fields "coeff" = false →
      ∀ t, parse_betting_team (.obj fields) = .ok (some t) → t.coeff = 0) := by
  refine ⟨?_, ?_, ?_, ?_, ?_, ?_⟩
  · intro h; simp [to_betting_odds_dict, bne_iff_ne, h]
  · intro h; simp [to_betting_odds_dict, h]
  · intro h; simp [to_betting_odds_dict, bne_iff_ne, h]
  · intro h; simp [to_betting_odds_dict, h]
  · intro h; simp [to_betting_odds_dict, bne_iff_ne, h]
  · intro h t ht
    have hco : pyFloat (JVal.num 0) = .ok 0 := rfl
    simp only [parse_betting_team, dgetD_eq_dflt_of_hasKey_eq_false h, hco] at ht
    split at ht
    · simp at ht
    · split at ht
      · simp at ht
      · split at ht
        · simp at ht
        · split at ht
          · simp at ht
          · simp only [Except.ok.injEq, Option.some.injEq] at ht
            subst ht
            rfl

/-- C5 witness: the fixture odds with coefficients `2` and `0`, and a
betting-team payload with no `coeff` key. -/
theorem implied_probability_spec_witness :
    (to_betting_odds_dict oddsW 5).team1_implied_prob = some (1 / 2)
  ∧ (to_betting_odds_dict oddsW 5).team2_implied_prob = none
  ∧ betTeamW.coeff = 0 := by
  have h := implied_probability_spec oddsW 5 [("team_id", .int 3)]
  exact ⟨h.2.2.2.2.1 rfl, h.2.2.2.1 rfl, h.2.2.2.2.2 rfl betTeamW rfl⟩

/-!
## C6 — required-field policy of the parser
-/

/-- C6: a nested team or tournament payload missing `id` or missing `name`
parses to an absent result rather than raising, while a top-level match
payload missing its identity field is a hard failure raising the validation
error. -/
theorem parser_missing_identity (fields : List (String × JVal)) :
    ((hasKey fields "id" = false ∨ hasKey fields "name" = false) →
      parse_team (.obj fields) = .ok none
      ∧ parse_tournament (.obj fields) = .ok none)
  ∧ (hasKey fields "id" = false →
      parse_match (.obj fields)
        = .error (.valueError "Match data must include id field")) := by
  constructor
  · intro h
    constructor
    · simp only [parse_team]
      rcases h with h | h
      · rw [dget_eq_null_of_hasKey_eq_false h]
        simp [truthy]
      · rw [dget_eq_null_of_hasKey_eq_false h]
        simp [truthy]
    · simp only [parse_tournament]
      rcases h with h | h
      · rw [dget_eq_null_of_hasKey_eq_false h]
        simp [truthy]
      · rw [dget_eq_null_of_hasKey_eq_false h]
        simp [truthy]
  · intro h
    simp only [parse_match]
    rw [dget_eq_null_of_hasKey_eq_false h]
    simp [truthy]

/-- C6 witness: a payload with a name but no id. -/
theorem parser_missing_identity_witness :
    parse_team (.obj [("name", .str "NAVI")]) = .ok none
  ∧ parse_tournament (.obj [("name", .str "NAVI")]) = .ok none
  ∧ parse_match (.obj [("name", .str "NAVI")])
      = .error (.valueError "Match data must include id field") := by
  have h := parser_missing_identity [("name", .str "NAVI")]
  exact ⟨(h.1 (Or.inl rfl)).1, (h.1 (Or.inl rfl)).2, h.2 rfl⟩

/-!
## C10 — required-field checks are truthiness checks
-/

/-- C10: the parser's required-field guards test truthiness, not key
presence: an `id` equal to `0` or a `name` equal to the empty string is
treated exactly like a missing field — the nested parsers return absent and
the top-level match parser raises. -/
theorem parser_truthiness_guards (fields : List (String × JVal)) :
    (dget fields "id" = .int 0 →
      parse_team (.obj fields) = .ok none
      ∧ parse_tournament (.obj fields) = .ok none
      ∧ parse_match (.obj fields)
          = .error (.valueError "Match data must include id field"))
  ∧ (dget fields "name" = .str "" →
      parse_team (.obj fields) = .ok none
      ∧ parse_tournament (.obj fields) = .ok none) := by
  constructor
  · intro h
    refine ⟨?_, ?_, ?_⟩
    · simp only [parse_team, h]
      simp [truthy]
    · simp only [parse_tournament, h]
      simp [truthy]
    · simp only [parse_match, h]
      simp [truthy]
  · intro h
    constructor
    · simp only [parse_team, h]
      simp [truthy, show "".isEmpty = true from rfl]
    · simp only [parse_tournament, h]
      simp [truthy, show "".isEmpty = true from rfl]

/-- C10 witness: a zero id and an empty name, both with the other identity
field present and truthy. -/
theorem parser_truthiness_guards_witness :
    parse_team (.obj [("id", .int 0), ("name", .str "NAVI")]) = .ok none
  ∧ parse_match (.obj [("id", .int 0), ("name", .str "NAVI")])
      = .error (.valueError "Match data must include id field")
  ∧ parse_tournament (.obj [("id", .int 3578), ("name", .str "")]) = .ok none := by
  have h1 := parser_truthiness_guards [("id", .int 0), ("name", .str "NAVI")]
  have h2 := parser_truthiness_guards [("id", .int 3578), ("name", .str "")]
  exact ⟨(h1.1 rfl).1, (h1.1 rfl).2.2, (h2.2 rfl).2⟩

/-!
## C9 — numeric defaulting and nullable optional fields
-/

/-- C9: on payloads the parser accepts, absent numeric prediction and odds
fields default to `0`/`0.0`, while absent optional team, tournament and
match fields remain absent. -/
theorem parser_numeric_defaulting (pf bf tf trf mf : List (String × JVal)) :
    (hasKey pf "prediction_team1_score" = false →
      ∀ p, parse_ai_prediction (.obj pf) = .ok (some p) →
        p.prediction_team1_score = 0)
  ∧ (hasKey pf "prediction_team2_score" = false →
      ∀ p, parse_ai_prediction (.obj pf) = .ok (some p) →
        p.prediction_team2_score = 0)
  ∧ (hasKey pf "prediction_winner_team_id" = false →
      ∀ p, parse_ai_prediction (.obj pf) = .ok (some p) →
        p.prediction_winner_team_id = 0)
  ∧ (hasKey bf "coeff" = false ∧ hasKey bf "max_coeff" = false ∧
        hasKey bf "aggrement_score" = false →
      ∀ t, parse_betting_team (.obj bf) = .ok (some t) →
        t.coeff = 0 ∧ t.max_coeff = 0 ∧ t.aggrement_score = 0)
  ∧ (hasKey tf "slug" = false ∧ hasKey tf "country_code" = false →
      ∀ t, parse_team (.obj tf) = .ok (some t) →
        t.slug = .null ∧ t.country_code = .null)
  ∧ (hasKey trf "start_date" = false ∧ hasKey trf "tier" = false →
      ∀ t, parse_tournament (.obj trf) = .ok (some t) →
        t.start_date = none ∧ t.tier = .null)
  ∧ (hasKey mf "slug" = false ∧ hasKey mf "team1_score" = false ∧
        hasKey mf "start_date" = false →
      ∀ m, parse_match (.obj mf) = .ok m →
        m.slug = .null ∧ m.team1_score = .null ∧ m.start_date = none) := by
  have hint : pyInt (JVal.int 0) = .ok 0 := rfl
  refine ⟨?_, ?_, ?_, ?_, ?_, ?_, ?_⟩
  · intro h p hp
    simp only [parse_ai_prediction, dgetD_eq_dflt_of_hasKey_eq_false h, hint] at hp
    repeat' split at hp
    all_goals simp_all
    all_goals (subst hp; simp)
  · intro h p hp
    simp only [parse_ai_prediction, dgetD_eq_dflt_of_hasKey_eq_false h, hint] at hp
    repeat' split at hp
    all_goals simp_all
    all_goals (subst hp; simp)
  · intro h p hp
    simp only [parse_ai_prediction, dgetD_eq_dflt_of_hasKey_eq_false h, hint] at hp
    repeat' split at hp
    all_goals simp_all
    all_goals (subst hp; simp)
  · intro h t ht
    have hco : pyFloat (JVal.num 0) = .ok 0 := rfl
    simp only [parse_betting_team, dgetD_eq_dflt_of_hasKey_eq_false h.1,
      dgetD_eq_dflt_of_hasKey_eq_false h.2.1,
      dgetD_eq_dflt_of_hasKey_eq_false h.2.2, hco] at ht
    repeat' split at ht
    all_goals simp_all
    all_goals (subst ht; simp)
  · intro h t ht
    simp only [parse_team, dget_eq_null_of_hasKey_eq_false h.1,
      dget_eq_null_of_hasKey_eq_false h.2] at ht
    repeat' split at ht
    all_goals simp_all
    all_goals (subst ht; simp)
  · intro h t ht
    simp only [parse_tournament, dget_eq_null_of_hasKey_eq_false h.1,
      dget_eq_null_of_hasKey_eq_false h.2,
      show parse_datetime .null = none from rfl] at ht
    repeat' split at ht
    all_goals simp_all
    all_goals (subst ht; simp)
  · intro h m hm
    simp only [parse_match, dget_eq_null_of_hasKey_eq_false h.1,
      dget_eq_null_of_hasKey_eq_false h.2.1,
      dget_eq_null_of_hasKey_eq_false h.2.2,
      show parse_datetime .null = none from rfl] at hm
    repeat' split at hm
    all_goals simp_all
    all_goals (subst hm; simp)

/-- C9 witness: concrete payloads with the respective keys absent, together
with the records they parse to. -/
theorem parser_numeric_defaulting_witness :
    predParsedW.prediction_team1_score = 0
  ∧ predParsedW.prediction_team2_score = 0
  ∧ predParsedW.prediction_winner_team_id = 0
  ∧ (betTeamW.coeff = 0 ∧ betTeamW.max_coeff = 0 ∧ betTeamW.aggrement_score = 0)
  ∧ (teamW1.slug = .null ∧ teamW1.country_code = .null)
  ∧ (tournW.start_date = none ∧ tournW.tier = .null)
  ∧ (matchParsedW.slug = .null ∧ matchParsedW.team1_score = .null ∧
      matchParsedW.start_date = none) := by
  have h := parser_numeric_defaulting pfW [("team_id", .int 3)]
    [("id", .int 736), ("name", .str "NAVI")]
    [("id", .int 3578), ("name", .str "Major")]
    [("id", .int 103084)]
  exact ⟨h.1 rfl predParsedW rfl, h.2.1 rfl predParsedW rfl,
    h.2.2.1 rfl predParsedW rfl, h.2.2.2.1 ⟨rfl, rfl, rfl⟩ betTeamW rfl,
    h.2.2.2.2.1 ⟨rfl, rfl⟩ teamW1 rfl, h.2.2.2.2.2.1 ⟨rfl, rfl⟩ tournW rfl,
    h.2.2.2.2.2.2 ⟨rfl, rfl, rfl⟩ matchParsedW rfl⟩

/-!
## C4 — the update_match allow-list and frame
-/

theorem applyMatchUpd_rowFrame (r : MatchRow) (k : String) (v : JVal) :
    rowFrame (applyMatchUpd r k v) = rowFrame r ∧
    (applyMatchUpd r k v).updated_at = r.updated_at ∧
    (applyMatchUpd r k v).last_fetched_at = r.last_fetched_at := by
  unfold applyMatchUpd
  split_ifs <;> exact ⟨rfl, rfl, rfl⟩

theorem foldl_applyMatchUpd_rowFrame (L : List (String × JVal)) (r : MatchRow) :
    rowFrame (L.foldl (fun r kv => applyMatchUpd r kv.1 kv.2) r) = rowFrame r := by
  induction L generalizing r with
  | nil => rfl
  | cons kv L ih =>
    rw [List.foldl_cons]
    exact (ih _).trans (applyMatchUpd_rowFrame r kv.1 kv.2).1

theorem applyMatchUpd_team1_score_of_ne (r : MatchRow) (k : String) (v : JVal)
    (hk : (k == "team1_score") = false) :
    (applyMatchUpd r k v).team1_score = r.team1_score := by
  unfold applyMatchUpd
  simp only [hk]
  split_ifs <;> first | contradiction | rfl

theorem foldl_applyMatchUpd_team1_score (L : List (String × JVal)) (r : MatchRow) :
    (L.foldl (fun r kv => applyMatchUpd r kv.1 kv.2) r).team1_score
      = (lastVal L "team1_score").getD r.team1_score := by
  induction L using List.reverseRecOn generalizing r with
  | nil => simp [lastVal]
  | append_singleton l kv ih =>
    rw [List.foldl_append, List.foldl_cons, List.foldl_nil]
    unfold lastVal
    rw [List.reverse_append, List.reverse_singleton, List.singleton_append]
    cases hk : (kv.1 == "team1_score") with
    | true =>
      have hfind : List.find? (fun kv : String × JVal => kv.1 == "team1_score")
          (kv :: l.reverse) = some kv := by
        simp [List.find?_cons, hk]
      rw [hfind]
      have hkeq : kv.1 = "team1_score" := by simpa using hk
      simp [applyMatchUpd, hkeq]
    | false =>
      have hfind : List.find? (fun kv : String × JVal => kv.1 == "team1_score")
          (kv :: l.reverse)
          = List.find? (fun kv : String × JVal => kv.1 == "team1_score") l.reverse := by
        simp [List.find?_cons, hk]
      rw [hfind]
      rw [applyMatchUpd_team1_score_of_ne _ _ _ hk]
      exact ih r

theorem applyMatchUpd_team2_score_of_ne (r : MatchRow) (k : String) (v : JVal)
    (hk : (k == "team2_score") = false) :
    (applyMatchUpd r k v).team2_score = r.team2_score := by
  unfold applyMatchUpd
  simp only [hk]
  split_ifs <;> first | contradiction | rfl

theorem foldl_applyMatchUpd_team2_score (L : List (String × JVal)) (r : MatchRow) :
    (L.foldl (fun r kv => applyMatchUpd r kv.1 kv.2) r).team2_score
      = (lastVal L "team2_score").getD r.team2_score := by
  induction L using List.reverseRecOn generalizing r with
  | nil => simp [lastVal]
  | append_singleton l kv ih =>
    rw [List.foldl_append, List.foldl_cons, List.foldl_nil]
    unfold lastVal
    rw [List.reverse_append, List.reverse_singleton, List.singleton_append]
    cases hk : (kv.1 == "team2_score") with
    | true =>
      have hfind : List.find? (fun kv : String × JVal => kv.1 == "team2_score")
          (kv :: l.reverse) = some kv := by
        simp [List.find?_cons, hk]
      rw [hfind]
      have hkeq : kv.1 = "team2_score" := by simpa using hk
      simp [applyMatchUpd, hkeq]
    | false =>
      have hfind : List.find? (fun kv : String × JVal => kv.1 == "team2_score")
          (kv :: l.reverse)
          = List.find? (fun kv : String × JVal => kv.1 == "team2_score") l.reverse := by
        simp [List.find?_cons, hk]
      rw [hfind]
      rw [applyMatchUpd_team2_score_of_ne _ _ _ hk]
      exact ih r

theorem applyMatchUpd_status_of_ne (r : MatchRow) (k : String) (v : JVal)
    (hk : (k == "status") = false) :
    (applyMatchUpd r k v).status = r.status := by
  unfold applyMatchUpd
  simp only [hk]
  split_ifs <;> first | contradiction | rfl

theorem foldl_applyMatchUpd_status (L : List (String × JVal)) (r : MatchRow) :
    (L.foldl (fun r kv => applyMatchUpd r kv.1 kv.2) r).status
      = (lastVal L "status").getD r.status := by
  induction L using List.reverseRecOn generalizing r with
  | nil => simp [lastVal]
  | append_singleton l kv ih =>
    rw [List.foldl_append, List.foldl_cons, List.foldl_nil]
    unfold lastVal
    rw [List.reverse_append, List.reverse_singleton, List.singleton_append]
    cases hk : (kv.1 == "status") with
    | true =>
      have hfind : List.find? (fun kv : String × JVal => kv.1 == "status")
          (kv :: l.reverse) = some kv := by
        simp [List.find?_cons, hk]
      rw [hfind]
      have hkeq : kv.1 = "status" := by simpa using hk
      simp [applyMatchUpd, hkeq]
    | false =>
      have hfind : List.find? (fun kv : String × JVal => kv.1 == "status")
          (kv :: l.reverse)
          = List.find? (fun kv : String × JVal => kv.1 == "status") l.reverse := by
        simp [List.find?_cons, hk]
      rw [hfind]
      rw [applyMatchUpd_status_of_ne _ _ _ hk]
      exact ih r

theorem applyMatchUpd_winner_team_id_of_ne (r : MatchRow) (k : String) (v : JVal)
    (hk : (k == "winner_team_id") = false) :
    (applyMatchUpd r k v).winner_team_id = r.winner_team_id := by
  unfold applyMatchUpd
  simp only [hk]
  split_ifs <;> first | contradiction | rfl

theorem foldl_applyMatchUpd_winner_team_id (L : List (String × JVal)) (r : MatchRow) :
    (L.foldl (fun r kv => applyMatchUpd r kv.1 kv.2) r).winner_team_id
      = (lastVal L "winner_team_id").getD r.winner_team_id := by
  induction L using List.reverseRecOn generalizing r with
  | nil => simp [lastVal]
  | append_singleton l kv ih =>
    rw [List.foldl_append, List.foldl_cons, List.foldl_nil]
    unfold lastVal
    rw [List.reverse_append, List.reverse_singleton, List.singleton_append]
    cases hk : (kv.1 == "winner_team_id") with
    | true =>
      have hfind : List.find? (fun kv : String × JVal => kv.1 == "winner_team_id")
          (kv :: l.reverse) = some kv := by
        simp [List.find?_cons, hk]
      rw [hfind]
      have hkeq : kv.1 = "winner_team_id" := by simpa using hk
      simp [applyMatchUpd, hkeq]
    | false =>
      have hfind : List.find? (fun kv : String × JVal => kv.1 == "winner_team_id")
          (kv :: l.reverse)
          = List.find? (fun kv : String × JVal => kv.1 == "winner_team_id") l.reverse := by
        simp [List.find?_cons, hk]
      rw [hfind]
      rw [applyMatchUpd_winner_team_id_of_ne _ _ _ hk]
      exact ih r

theorem applyMatchUpd_loser_team_id_of_ne (r : MatchRow) (k : String) (v : JVal)
    (hk : (k == "loser_team_id") = false) :
    (applyMatchUpd r k v).loser_team_id = r.loser_team_id := by
  unfold applyMatchUpd
  simp only [hk]
  split_ifs <;> first | contradiction | rfl

theorem foldl_applyMatchUpd_loser_team_id (L : List (String × JVal)) (r : MatchRow) :
    (L.foldl (fun r kv => applyMatchUpd r kv.1 kv.2) r).loser_team_id
      = (lastVal L "loser_team_id").getD r.loser_team_id := by
  induction L using List.reverseRecOn generalizing r with
  | nil => simp [lastVal]
  | append_singleton l kv ih =>
    rw [List.foldl_append, List.foldl_cons, List.foldl_nil]
    unfold lastVal
    rw [List.reverse_append, List.reverse_singleton, List.singleton_append]
    cases hk : (kv.1 == "loser_team_id") with
    | true =>
      have hfind : List.find? (fun kv : String × JVal => kv.1 == "loser_team_id")
          (kv :: l.reverse) = some kv := by
        simp [List.find?_cons, hk]
      rw [hfind]
      have hkeq : kv.1 = "loser_team_id" := by simpa using hk
      simp [applyMatchUpd, hkeq]
    | false =>
      have hfind : List.find? (fun kv : String × JVal => kv.1 == "loser_team_id")
          (kv :: l.reverse)
          = List.find? (fun kv : String × JVal => kv.1 == "loser_team_id") l.reverse := by
        simp [List.find?_cons, hk]
      rw [hfind]
      rw [applyMatchUpd_loser_team_id_of_ne _ _ _ hk]
      exact ih r

theorem applyMatchUpd_raw_data_of_ne (r : MatchRow) (k : String) (v : JVal)
    (hk : (k == "raw_data") = false) :
    (applyMatchUpd r k v).raw_data = r.raw_data := by
  unfold applyMatchUpd
  simp only [hk]
  split_ifs <;> first | contradiction | rfl

theorem foldl_applyMatchUpd_raw_data (L : List (String × JVal)) (r : MatchRow) :
    (L.foldl (fun r kv => applyMatchUpd r kv.1 kv.2) r).raw_data
      = (lastVal L "raw_data").getD r.raw_data := by
  induction L using List.reverseRecOn generalizing r with
  | nil => simp [lastVal]
  | append_singleton l kv ih =>
    rw [List.foldl_append, List.foldl_cons, List.foldl_nil]
    unfold lastVal
    rw [List.reverse_append, List.reverse_singleton, List.singleton_append]
    cases hk : (kv.1 == "raw_data") with
    | true =>
      have hfind : List.find? (fun kv : String × JVal => kv.1 == "raw_data")
          (kv :: l.reverse) = some kv := by
        simp [List.find?_cons, hk]
      rw [hfind]
      have hkeq : kv.1 = "raw_data" := by simpa using hk
      simp [applyMatchUpd, hkeq]
    | false =>
      have hfind : List.find? (fun kv : String × JVal => kv.1 == "raw_data")
          (kv :: l.reverse)
          = List.find? (fun kv : String × JVal => kv.1 == "raw_data") l.reverse := by
        simp [List.find?_cons, hk]
      rw [hfind]
      rw [applyMatchUpd_raw_data_of_ne _ _ _ hk]
      exact ih r

theorem recognizedUpds_eq_nil_iff (updates : List (String × JVal)) :
    recognizedUpds updates = []
      ↔ ∀ kv ∈ updates, ¬(kv.1 ∈ UPDATE_MATCH_KEYS ∨ kv.1 = "raw_data") := by
  unfold recognizedUpds
  rw [List.filter_eq_nil_iff]
  constructor
  · intro h kv hkv
    have := h kv hkv
    simp only [Bool.or_eq_true, not_or] at this
    push_neg at this
    simpa using this
  · intro h kv hkv
    have := h kv hkv
    simp only [not_or] at this
    simp [this.1, this.2]

theorem lastVal_recognizedUpds (updates : List (String × JVal)) (k : String)
    (hk : k ∈ UPDATE_MATCH_KEYS ∨ k = "raw_data") :
    lastVal (recognizedUpds updates) k = lastVal updates k := by
  unfold lastVal recognizedUpds
  rw [← List.filter_reverse]
  rw [find?_filter_of_imp]
  intro kv hkv
  have hkeq : kv.1 = k := by simpa using hkv
  rcases hk with hk | hk
  · simp [hkeq, hk]
  · simp [hkeq, hk]

/-- C4: `update_match` applies only keys in the fixed allow-list
(`team1_score`, `team2_score`, `status`, `winner_team_id`, `loser_team_id`,
`raw_data`), silently ignoring every other key; when no recognized key is
present the call is a no-op that leaves the whole store — timestamps
included — untouched; when at least one recognized key is present it
rewrites exactly the allow-listed columns of the addressed row, stamps both
`updated_at` and `last_fetched_at`, and leaves every other field, every
other row and every other table unchanged. -/
theorem update_match_allowlist (db : DB) (mid : Nat)
    (updates : List (String × JVal)) :
    ((∀ kv ∈ updates, ¬(kv.1 ∈ UPDATE_MATCH_KEYS ∨ kv.1 = "raw_data")) →
        update_match_run db mid updates = db)
  ∧ ((∃ kv ∈ updates, kv.1 ∈ UPDATE_MATCH_KEYS ∨ kv.1 = "raw_data") →
      (update_match_run db mid updates).teams = db.teams
      ∧ (update_match_run db mid updates).tournaments = db.tournaments
      ∧ (update_match_run db mid updates).ai_predictions = db.ai_predictions
      ∧ (update_match_run db mid updates).betting_odds = db.betting_odds
      ∧ (update_match_run db mid updates).next_id = db.next_id
      ∧ (update_match_run db mid updates).now = db.now
      ∧ (update_match_run db mid updates).matches_.length = db.matches_.length
      ∧ (∀ i : Nat, ∀ r, db.matches_[i]? = some r → r.id ≠ mid →
          (update_match_run db mid updates).matches_[i]? = some r)
      ∧ (∀ i : Nat, ∀ r, db.matches_[i]? = some r → r.id = mid →
          ∃ r2, (update_match_run db mid updates).matches_[i]? = some r2
            ∧ rowFrame r2 = rowFrame r
            ∧ r2.updated_at = some db.now
            ∧ r2.last_fetched_at = some db.now
            ∧ r2.team1_score = (lastVal updates "team1_score").getD r.team1_score
            ∧ r2.team2_score = (lastVal updates "team2_score").getD r.team2_score
            ∧ r2.status = (lastVal updates "status").getD r.status
            ∧ r2.winner_team_id
                = (lastVal updates "winner_team_id").getD r.winner_team_id
            ∧ r2.loser_team_id
                = (lastVal updates "loser_team_id").getD r.loser_team_id
            ∧ r2.raw_data = (lastVal updates "raw_data").getD r.raw_data)) := by
  constructor
  · intro h
    have hnil : recognizedUpds updates = [] := (recognizedUpds_eq_nil_iff updates).mpr h
    unfold update_match_run update_match
    rw [hnil]
    rfl
  · intro h
    have hnil : recognizedUpds updates ≠ [] := by
      intro hc
      rcases h with ⟨kv, hkv, hrec⟩
      exact ((recognizedUpds_eq_nil_iff updates).mp hc) kv hkv hrec
    have hne : (recognizedUpds updates).isEmpty = false := by
      cases hh : recognizedUpds updates with
      | nil => exact absurd hh hnil
      | cons a l => rfl
    have hrun : update_match_run db mid updates
        = { db with matches_ := db.matches_.map (fun r =>
            if r.id == mid then
              stampRow ((recognizedUpds updates).foldl
                (fun r kv => applyMatchUpd r kv.1 kv.2) r) db.now
            else r) } := by
      unfold update_match_run update_match
      rw [hne]
      rfl

    rw [hrun]
    refine ⟨rfl, rfl, rfl, rfl, rfl, rfl, by simp, ?_, ?_⟩
    · intro i r hi hne2
      simp only [List.getElem?_map, hi, Option.map_some']
      rw [if_neg (by simp [hne2])]
    · intro i r hi hmid
      simp only [List.getElem?_map, hi, Option.map_some']
      have hbeq : (r.id == mid) = true := by simpa using hmid
      refine ⟨stampRow ((recognizedUpds updates).foldl
          (fun r kv => applyMatchUpd r kv.1 kv.2) r) db.now,
        ?_, ?_, rfl, rfl, ?_, ?_, ?_, ?_, ?_, ?_⟩
      · rw [if_pos hbeq]
      · exact foldl_applyMatchUpd_rowFrame _ r
      · rw [show (stampRow ((recognizedUpds updates).foldl
            (fun r kv => applyMatchUpd r kv.1 kv.2) r) db.now).team1_score
            = ((recognizedUpds updates).foldl
              (fun r kv => applyMatchUpd r kv.1 kv.2) r).team1_score from rfl,
          foldl_applyMatchUpd_team1_score,
          lastVal_recognizedUpds _ _ (by simp [UPDATE_MATCH_KEYS])]
      · rw [show (stampRow ((recognizedUpds updates).foldl
            (fun r kv => applyMatchUpd r kv.1 kv.2) r) db.now).team2_score
            = ((recognizedUpds updates).foldl
              (fun r kv => applyMatchUpd r kv.1 kv.2) r).team2_score from rfl,
          foldl_applyMatchUpd_team2_score,
          lastVal_recognizedUpds _ _ (by simp [UPDATE_MATCH_KEYS])]
      · rw [show (stampRow ((recognizedUpds updates).foldl
            (fun r kv => applyMatchUpd r kv.1 kv.2) r) db.now).status
            = ((recognizedUpds updates).foldl
              (fun r kv => applyMatchUpd r kv.1 kv.2) r).status from rfl,
          foldl_applyMatchUpd_status,
          lastVal_recognizedUpds _ _ (by simp [UPDATE_MATCH_KEYS])]
      · rw [show (stampRow ((recognizedUpds updates).foldl
            (fun r kv => applyMatchUpd r kv.1 kv.2) r) db.now).winner_team_id
            = ((recognizedUpds updates).foldl
              (fun r kv => applyMatchUpd r kv.1 kv.2) r).winner_team_id from rfl,
          foldl_applyMatchUpd_winner_team_id,
          lastVal_recognizedUpds _ _ (by simp [UPDATE_MATCH_KEYS])]
      · rw [show (stampRow ((recognizedUpds updates).foldl
            (fun r kv => applyMatchUpd r kv.1 kv.2) r) db.now).loser_team_id
            = ((recognizedUpds updates).foldl
              (fun r kv => applyMatchUpd r kv.1 kv.2) r).loser_team_id from rfl,
          foldl_applyMatchUpd_loser_team_id,
          lastVal_recognizedUpds _ _ (by simp [UPDATE_MATCH_KEYS])]
      · rw [show (stampRow ((recognizedUpds updates).foldl
            (fun r kv => applyMatchUpd r kv.1 kv.2) r) db.now).raw_data
            = ((recognizedUpds updates).foldl
              (fun r kv => applyMatchUpd r kv.1 kv.2) r).raw_data from rfl,
          foldl_applyMatchUpd_raw_data,
          lastVal_recognizedUpds _ _ (by simp [UPDATE_MATCH_KEYS])]

/-- C4 witness: on the fixture store, an update with only an unrelated key
is a no-op, and one with recognized keys keeps the match-row count. -/
theorem update_match_allowlist_witness :
    update_match_run dbW1 3 [("unrelated_field", .str "x")] = dbW1
  ∧ (update_match_run dbW1 3
      [("status", .str "finished"), ("team1_score", .int 2)]).matches_.length
      = dbW1.matches_.length := by
  constructor
  · exact (update_match_allowlist dbW1 3 [("unrelated_field", .str "x")]).1
      (by decide)
  · exact ((update_match_allowlist dbW1 3
      [("status", .str "finished"), ("team1_score", .int 2)]).2
      (by decide)).2.2.2.2.2.2.1

/-!
## Characterization of the fault-free session steps
-/

theorem dbStep_none (s : PState) :
    dbStep none s = .ok { s with stmts := s.stmts + 1 } := rfl

theorem dbCommit_none (s : PState) :
    dbCommit none s = .ok ⟨s.pending, s.pending, s.stmts + 1⟩ := rfl

theorem goc_team_found {t : BO3Team} {st : String} {r : TeamRow} (s : PState)
    (hf : s.pending.teams.find? (teamKey st t.id) = some r) :
    get_or_create_team_from_model none t st s
      = .ok (r.id, { s with stmts := s.stmts + 1 }) := by
  unfold get_or_create_team_from_model
  simp only [dbStep_none]
  rw [show ((to_team_dict t).source_id) = t.id from rfl]
  rw [hf]

theorem goc_team_fresh {t : BO3Team} {st : String} (s : PState)
    (hf : s.pending.teams.find? (teamKey st t.id) = none) :
    get_or_create_team_from_model none t st s
      = .ok (s.pending.next_id,
          ⟨{ s.pending with
              teams := s.pending.teams ++ [teamRowOf t s.pending.next_id]
              next_id := s.pending.next_id + 1 },
            { s.pending with
              teams := s.pending.teams ++ [teamRowOf t s.pending.next_id]
              next_id := s.pending.next_id + 1 },
            s.stmts + 3⟩) := by
  unfold get_or_create_team_from_model
  simp only [dbStep_none]
  rw [show ((to_team_dict t).source_id) = t.id from rfl]
  rw [hf]
  rfl

theorem goc_tournament_found {t : BO3Tournament} {st : String}
    {r : TournamentRow} (s : PState)
    (hf : s.pending.tournaments.find? (tournamentKey st t.id) = some r) :
    get_or_create_tournament_from_model none t st s
      = .ok (r.id, { s with stmts := s.stmts + 1 }) := by
  unfold get_or_create_tournament_from_model
  simp only [dbStep_none]
  rw [show ((to_tournament_dict t).source_id) = t.id from rfl]
  rw [hf]

theorem goc_tournament_fresh {t : BO3Tournament} {st : String} (s : PState)
    (hf : s.pending.tournaments.find? (tournamentKey st t.id) = none) :
    get_or_create_tournament_from_model none t st s
      = .ok (s.pending.next_id,
          ⟨{ s.pending with
              tournaments := s.pending.tournaments
                ++ [tournamentRowOf t s.pending.next_id]
              next_id := s.pending.next_id + 1 },
            { s.pending with
              tournaments := s.pending.tournaments
                ++ [tournamentRowOf t s.pending.next_id]
              next_id := s.pending.next_id + 1 },
            s.stmts + 3⟩) := by
  unfold get_or_create_tournament_from_model
  simp only [dbStep_none]
  rw [show ((to_tournament_dict t).source_id) = t.id from rfl]
  rw [hf]
  rfl

/-!
## C7 — identity uniqueness of teams
-/

/-- C7: saving two team payloads carrying the same `(source_type,
source_id)` but different names leaves exactly one row for that key, the row
keeps the first-inserted name, and the second call returns the existing
internal id without modifying anything in the store. -/
theorem team_identity_uniqueness (db : DB) (t1 t2 : BO3Team)
    (hid : t2.id = t1.id)
    (hfresh : db.teams.find? (teamKey SOURCE_TYPE t1.id) = none) :
    (get_or_create_team_run
        (get_or_create_team_run db t1 SOURCE_TYPE).2 t2 SOURCE_TYPE).1
      = (get_or_create_team_run db t1 SOURCE_TYPE).1
  ∧ (get_or_create_team_run
        (get_or_create_team_run db t1 SOURCE_TYPE).2 t2 SOURCE_TYPE).2
      = (get_or_create_team_run db t1 SOURCE_TYPE).2
  ∧ ((get_or_create_team_run db t1 SOURCE_TYPE).2.teams.filter
      (teamKey SOURCE_TYPE t1.id)).length = 1
  ∧ (∀ r ∈ (get_or_create_team_run
        (get_or_create_team_run db t1 SOURCE_TYPE).2 t2 SOURCE_TYPE).2.teams,
      teamKey SOURCE_TYPE t1.id r = true → r.name = t1.name) := by
  have hrow : teamKey SOURCE_TYPE t1.id (teamRowOf t1 db.next_id) = true := by
    simp [teamKey, teamRowOf]
  have h1 : get_or_create_team_run db t1 SOURCE_TYPE
      = (db.next_id,
        { db with
          teams := db.teams ++ [teamRowOf t1 db.next_id]
          next_id := db.next_id + 1 }) := by
    unfold get_or_create_team_run
    rw [goc_team_fresh ⟨db, db, 0⟩ hfresh]
  have hf2 : ({ db with
        teams := db.teams ++ [teamRowOf t1 db.next_id]
        next_id := db.next_id + 1 } : DB).teams.find? (teamKey SOURCE_TYPE t2.id)
      = some (teamRowOf t1 db.next_id) := by
    rw [hid]
    show (db.teams ++ [teamRowOf t1 db.next_id]).find? (teamKey SOURCE_TYPE t1.id)
      = some (teamRowOf t1 db.next_id)
    rw [find?_append_none _ hfresh]
    simp [List.find?_cons, hrow]
  have h2 : get_or_create_team_run
      ({ db with
        teams := db.teams ++ [teamRowOf t1 db.next_id]
        next_id := db.next_id + 1 }) t2 SOURCE_TYPE
      = (db.next_id,
        { db with
          teams := db.teams ++ [teamRowOf t1 db.next_id]
          next_id := db.next_id + 1 }) := by
    unfold get_or_create_team_run
    rw [goc_team_found ⟨_, _, 0⟩ hf2]
    rfl
  rw [h1]
  refine ⟨?_, ?_, ?_, ?_⟩
  · rw [h2]
  · rw [h2]
  · show ((db.teams ++ [teamRowOf t1 db.next_id]).filter
      (teamKey SOURCE_TYPE t1.id)).length = 1
    rw [List.filter_append]
    have hnil : db.teams.filter (teamKey SOURCE_TYPE t1.id) = [] := by
      rw [List.filter_eq_nil_iff]
      intro r hr hkey
      have := List.find?_eq_none.mp hfresh r hr
      exact this hkey
    rw [hnil]
    simp [hrow]
  · rw [h2]
    intro r hr hkey
    show r.name = t1.name
    rcases List.mem_append.mp hr with hr | hr
    · exact absurd hkey (List.find?_eq_none.mp hfresh r hr)
    · rcases List.mem_singleton.mp hr with rfl
      rfl

/-- C7 witness: two payloads for source id 736 with different names into an
empty store. -/
theorem team_identity_uniqueness_witness :
    (get_or_create_team_run
        (get_or_create_team_run {} teamW1 SOURCE_TYPE).2
        { id := 736, name := "Natus Vincere" } SOURCE_TYPE).1
      = (get_or_create_team_run {} teamW1 SOURCE_TYPE).1
  ∧ ((get_or_create_team_run {} teamW1 SOURCE_TYPE).2.teams.filter
      (teamKey SOURCE_TYPE teamW1.id)).length = 1
  ∧ (∀ r ∈ (get_or_create_team_run
        (get_or_create_team_run {} teamW1 SOURCE_TYPE).2
        { id := 736, name := "Natus Vincere" } SOURCE_TYPE).2.teams,
      teamKey SOURCE_TYPE teamW1.id r = true → r.name = teamW1.name) := by
  have h := team_identity_uniqueness {} teamW1
    { id := 736, name := "Natus Vincere" } rfl rfl
  exact ⟨h.1, h.2.2.1, h.2.2.2⟩

/-!
## Characterization of update_match and the save_match session walk
-/

theorem update_match_none_noop (match_id : Nat) (updates : List (String × JVal))
    (s : PState) (h : (recognizedUpds updates).isEmpty = true) :
    update_match none match_id updates s = .ok s := by
  unfold update_match
  rw [h]
  rfl

theorem update_match_none_apply (match_id : Nat) (updates : List (String × JVal))
    (s : PState) (h : (recognizedUpds updates).isEmpty = false) :
    update_match none match_id updates s
      = .ok ⟨updDB s.pending match_id updates, updDB s.pending match_id updates,
          s.stmts + 2⟩ := by
  unfold update_match
  rw [h]
  rfl

theorem find?_map_of_pred_inv {α : Type} (f : α → α) (p : α → Bool) (l : List α)
    (h : ∀ r, p (f r) = p r) : (l.map f).find? p = (l.find? p).map f := by
  induction l with
  | nil => rfl
  | cons x l ih =>
    rw [List.map_cons]
    cases hp : p x with
    | true =>
      have hfx : p (f x) = true := (h x).trans hp
      rw [List.find?_cons_of_pos _ hfx, List.find?_cons_of_pos _ hp]
      rfl
    | false =>
      have hfx : ¬p (f x) = true := by simp [(h x).trans hp]
      rw [List.find?_cons_of_neg _ hfx, List.find?_cons_of_neg _ (by simp [hp])]
      exact ih

theorem matchKey_foldl_stamp (st : String) (sid : Int) (now : Nat)
    (L : List (String × JVal)) (r : MatchRow) :
    matchKey st sid (stampRow (L.foldl (fun r kv => applyMatchUpd r kv.1 kv.2) r) now)
      = matchKey st sid r := by
  have h := foldl_applyMatchUpd_rowFrame L r
  have h1 : (L.foldl (fun r kv => applyMatchUpd r kv.1 kv.2) r).source_type
      = r.source_type := congrArg (fun t => t.2.1) h
  have h2 : (L.foldl (fun r kv => applyMatchUpd r kv.1 kv.2) r).source_id
      = r.source_id := congrArg (fun t => t.2.2.1) h
  unfold matchKey stampRow
  simp only [h1, h2]

theorem updDB_matchKey_find? (db : DB) (match_id : Nat)
    (updates : List (String × JVal)) (st : String) (sid : Int) :
    ((updDB db match_id updates).matches_.find? (matchKey st sid)).map
        (fun r => r.id)
      = (db.matches_.find? (matchKey st sid)).map (fun r => r.id) := by
  unfold updDB
  rw [find?_map_of_pred_inv]
  · cases hf : db.matches_.find? (matchKey st sid) with
    | none => rfl
    | some r =>
      simp only [Option.map_some']
      cases hid : (r.id == match_id) with
      | true =>
        have hidp : (List.foldl (fun r kv => applyMatchUpd r kv.1 kv.2) r
            (recognizedUpds updates)).id = r.id :=
          congrArg (fun t => t.1)
            (foldl_applyMatchUpd_rowFrame (recognizedUpds updates) r)
        simp [hid, stampRow, hidp]
      | false => simp [hid]
  · intro r
    cases hid : (r.id == match_id) with
    | true => simp [hid, matchKey_foldl_stamp]
    | false => simp [hid]

theorem goc_team_none_post (t : BO3Team) (s : PState)
    (hpc : s.pending = s.committed) :
    ∃ i s2, get_or_create_team_from_model none t SOURCE_TYPE s = .ok (i, s2)
      ∧ s2.pending = s2.committed
      ∧ (∃ l, s2.pending.teams = s.pending.teams ++ l)
      ∧ (∃ r, s2.pending.teams.find? (teamKey SOURCE_TYPE t.id) = some r ∧ r.id = i)
      ∧ s2.pending.tournaments = s.pending.tournaments
      ∧ s2.pending.matches_ = s.pending.matches_
      ∧ s2.pending.ai_predictions = s.pending.ai_predictions
      ∧ s2.pending.betting_odds = s.pending.betting_odds
      ∧ s2.pending.now = s.pending.now := by
  cases hf : s.pending.teams.find? (teamKey SOURCE_TYPE t.id) with
  | some r =>
    exact ⟨r.id, { s with stmts := s.stmts + 1 }, goc_team_found s hf, hpc,
      ⟨[], by simp⟩, ⟨r, hf, rfl⟩, rfl, rfl, rfl, rfl, rfl⟩
  | none =>
    refine ⟨s.pending.next_id, _, goc_team_fresh s hf, rfl,
      ⟨[teamRowOf t s.pending.next_id], rfl⟩,
      ⟨teamRowOf t s.pending.next_id, ?_, rfl⟩, rfl, rfl, rfl, rfl, rfl⟩
    show (s.pending.teams ++ [teamRowOf t s.pending.next_id]).find?
        (teamKey SOURCE_TYPE t.id) = some (teamRowOf t s.pending.next_id)
    rw [find?_append_none _ hf]
    simp [List.find?_cons, teamKey, teamRowOf]

theorem goc_tournament_none_post (t : BO3Tournament) (s : PState)
    (hpc : s.pending = s.committed) :
    ∃ i s2, get_or_create_tournament_from_model none t SOURCE_TYPE s = .ok (i, s2)
      ∧ s2.pending = s2.committed
      ∧ (∃ l, s2.pending.tournaments = s.pending.tournaments ++ l)
      ∧ (∃ r, s2.pending.tournaments.find? (tournamentKey SOURCE_TYPE t.id) = some r
          ∧ r.id = i)
      ∧ s2.pending.teams = s.pending.teams
      ∧ s2.pending.matches_ = s.pending.matches_
      ∧ s2.pending.ai_predictions = s.pending.ai_predictions
      ∧ s2.pending.betting_odds = s.pending.betting_odds
      ∧ s2.pending.now = s.pending.now := by
  cases hf : s.pending.tournaments.find? (tournamentKey SOURCE_TYPE t.id) with
  | some r =>
    exact ⟨r.id, { s with stmts := s.stmts + 1 }, goc_tournament_found s hf, hpc,
      ⟨[], by simp⟩, ⟨r, hf, rfl⟩, rfl, rfl, rfl, rfl, rfl⟩
  | none =>
    refine ⟨s.pending.next_id, _, goc_tournament_fresh s hf, rfl,
      ⟨[tournamentRowOf t s.pending.next_id], rfl⟩,
      ⟨tournamentRowOf t s.pending.next_id, ?_, rfl⟩, rfl, rfl, rfl, rfl, rfl⟩
    show (s.pending.tournaments ++ [tournamentRowOf t s.pending.next_id]).find?
        (tournamentKey SOURCE_TYPE t.id) = some (tournamentRowOf t s.pending.next_id)
    rw [find?_append_none _ hf]
    simp [List.find?_cons, tournamentKey, tournamentRowOf]

theorem MatchWF_mono (db db' : DB) (hT : ∃ l, db'.teams = db.teams ++ l)
    (hTr : ∃ l, db'.tournaments = db.tournaments ++ l)
    (hM : db'.matches_ = db.matches_) (hwf : MatchWF db) : MatchWF db' := by
  intro mr hmr
  rw [hM] at hmr
  obtain ⟨⟨r1, hr1, hr1id⟩, ⟨r2, hr2, hr2id⟩, htr⟩ := hwf mr hmr
  obtain ⟨lT, hlT⟩ := hT
  obtain ⟨lTr, hlTr⟩ := hTr
  refine ⟨⟨r1, ?_, hr1id⟩, ⟨r2, ?_, hr2id⟩, ?_⟩
  · rw [hlT]; exact List.mem_append_left _ hr1
  · rw [hlT]; exact List.mem_append_left _ hr2
  · intro tid htid
    obtain ⟨rt, hrt, hrtid⟩ := htr tid htid
    exact ⟨rt, by rw [hlTr]; exact List.mem_append_left _ hrt, hrtid⟩

theorem MatchWF_updDB (db : DB) (match_id : Nat)
    (updates : List (String × JVal)) (hwf : MatchWF db) :
    MatchWF (updDB db match_id updates) := by
  intro mr hmr
  unfold updDB at hmr
  simp only at hmr
  obtain ⟨mr0, hmr0, hg⟩ := List.mem_map.mp hmr
  obtain ⟨h1, h2, h3⟩ := hwf mr0 hmr0
  have hrefs : mr.team1_id = mr0.team1_id ∧ mr.team2_id = mr0.team2_id
      ∧ mr.tournament_id = mr0.tournament_id := by
    cases hid : (mr0.id == match_id) with
    | true =>
      rw [← hg]
      simp only [hid, if_pos]
      have hfr := foldl_applyMatchUpd_rowFrame (recognizedUpds updates) mr0
      exact ⟨congrArg (fun t => t.2.2.2.2.1) hfr,
        congrArg (fun t => t.2.2.2.2.2.1) hfr,
        congrArg (fun t => t.2.2.2.2.2.2.1) hfr⟩
    | false =>
      rw [← hg]
      simp [hid]
  refine ⟨⟨h1.choose, h1.choose_spec.1, by rw [hrefs.1]; exact h1.choose_spec.2⟩,
    ⟨h2.choose, h2.choose_spec.1, by rw [hrefs.2.1]; exact h2.choose_spec.2⟩, ?_⟩
  intro tid htid
  rw [hrefs.2.2] at htid
  exact h3 tid htid

theorem recognizedUpds_matchUpdDict_ne (md : MatchDict) :
    (recognizedUpds (matchUpdDict md)).isEmpty = false := rfl

/-- What a successful fault-free `save_match` session guarantees: the
committed and pending views agree, both embedded teams were present and are
now resolvable by their identity key, the tournament (when embedded) is
resolvable, the match itself is resolvable and carries the returned internal
id, and referential integrity of match rows is preserved. -/
theorem save_matchAux_none_post (m : BO3Match) (s : PState)
    (hpc : s.pending = s.committed) {i : Nat} {s2 : PState}
    (h : save_matchAux none m s = .ok (i, s2)) :
    s2.pending = s2.committed
  ∧ (∃ t1, m.team1 = some t1
      ∧ ∃ r, s2.pending.teams.find? (teamKey SOURCE_TYPE t1.id) = some r)
  ∧ (∃ t2, m.team2 = some t2
      ∧ ∃ r, s2.pending.teams.find? (teamKey SOURCE_TYPE t2.id) = some r)
  ∧ (∀ tr, m.tournament = some tr →
      ∃ r, s2.pending.tournaments.find? (tournamentKey SOURCE_TYPE tr.id) = some r)
  ∧ (∃ rm, s2.pending.matches_.find? (matchKey SOURCE_TYPE m.id) = some rm
      ∧ rm.id = i)
  ∧ (MatchWF s.pending → MatchWF s2.pending) := by
  simp only [save_matchAux] at h
  rw [show (to_match_dict m).team1 = m.team1 from rfl,
      show (to_match_dict m).team2 = m.team2 from rfl,
      show (to_match_dict m).tournament = m.tournament from rfl,
      show (to_match_dict m).source_type = SOURCE_TYPE from rfl,
      show (to_match_dict m).source_id = m.id from rfl] at h
  cases hm1 : m.team1 with
  | none =>
    rw [hm1] at h
    cases hm2 : m.team2 with
    | none => rw [hm2] at h; simp at h
    | some t2 => rw [hm2] at h; simp at h
  | some t1 =>
  rw [hm1] at h
  cases hm2 : m.team2 with
  | none => rw [hm2] at h; simp at h
  | some t2 =>
  rw [hm2] at h
  obtain ⟨i1, s1, hg1, hpc1, ⟨lt1, hlt1⟩, ⟨r1, hr1, hr1id⟩, htour1, hmat1,
    hai1, hbo1, hnow1⟩ := goc_team_none_post t1 s hpc
  simp only [hg1] at h
  obtain ⟨i2, sB, hg2, hpcB, ⟨lt2, hlt2⟩, ⟨r2, hr2, hr2id⟩, htourB, hmatB,
    haiB, hboB, hnowB⟩ := goc_team_none_post t2 s1 hpc1
  simp only [hg2] at h
  have hr1B : sB.pending.teams.find? (teamKey SOURCE_TYPE t1.id) = some r1 := by
    rw [hlt2]; exact find?_append_some _ hr1
  -- tournament resolution step
  cases hmt : m.tournament with
  | none =>
    rw [hmt] at h
    simp only [dbStep_none] at h
    cases hfm : sB.pending.matches_.find? (matchKey SOURCE_TYPE m.id) with
    | some existing =>
      simp only [hfm] at h
      rw [update_match_none_apply _ _ _
        (recognizedUpds_matchUpdDict_ne (to_match_dict m))] at h
      simp only [Except.ok.injEq, Prod.mk.injEq] at h
      obtain ⟨hi, hs2⟩ := h
      subst hi
      subst hs2
      refine ⟨rfl, ⟨t1, rfl, r1, hr1B⟩, ⟨t2, rfl, r2, hr2⟩, ?_, ?_, ?_⟩
      · intro tr htr
        exact absurd htr (by simp)
      · have hmap := updDB_matchKey_find? sB.pending existing.id
          (matchUpdDict (to_match_dict m)) SOURCE_TYPE m.id
        rw [hfm] at hmap
        simp only [Option.map_some'] at hmap
        obtain ⟨rm, hrm, hrmid⟩ := Option.map_eq_some'.mp hmap
        exact ⟨rm, hrm, hrmid⟩
      · intro hwf
        have hwfB : MatchWF sB.pending := by
          refine MatchWF_mono _ _ ?_ ?_ ?_ hwf
          · rw [hlt2, hlt1]; exact ⟨lt1 ++ lt2, by rw [List.append_assoc]⟩
          · rw [htourB, htour1]; exact ⟨[], by simp⟩
          · rw [hmatB, hmat1]
        exact MatchWF_updDB sB.pending existing.id _ hwfB
    | none =>
      simp only [hfm] at h
      simp only [dbStep_none, dbCommit_none] at h
      simp only [Except.ok.injEq, Prod.mk.injEq] at h
      obtain ⟨hi, hs2⟩ := h
      subst hi
      subst hs2
      refine ⟨rfl, ⟨t1, rfl, r1, hr1B⟩, ⟨t2, rfl, r2, hr2⟩, ?_, ?_, ?_⟩
      · intro tr htr
        exact absurd htr (by simp)
      · have hfind : (sB.pending.matches_
            ++ [insMatchRow (to_match_dict m) i1 i2 none
                sB.pending.next_id sB.pending.now]).find?
              (matchKey SOURCE_TYPE m.id)
            = some (insMatchRow (to_match_dict m) i1 i2 none
                sB.pending.next_id sB.pending.now) := by
          rw [find?_append_none _ hfm]
          simp [List.find?_cons, matchKey, insMatchRow, to_match_dict]
        exact ⟨_, hfind, rfl⟩
      · intro hwf
        have hwfB : MatchWF sB.pending := by
          refine MatchWF_mono _ _ ?_ ?_ ?_ hwf
          · rw [hlt2, hlt1]; exact ⟨lt1 ++ lt2, by rw [List.append_assoc]⟩
          · rw [htourB, htour1]; exact ⟨[], by simp⟩
          · rw [hmatB, hmat1]
        intro mr hmr
        rcases List.mem_append.mp hmr with hmr | hmr
        · obtain ⟨hh1, hh2, hh3⟩ := hwfB mr hmr
          exact ⟨hh1, hh2, hh3⟩
        · rcases List.mem_singleton.mp hmr with rfl
          refine ⟨⟨r1, List.mem_of_find?_eq_some hr1B, hr1id⟩,
            ⟨r2, List.mem_of_find?_eq_some hr2, hr2id⟩, ?_⟩
          intro tid htid
          cases htid
  | some tr =>
    rw [hmt] at h
    obtain ⟨i3, sC, hg3, hpcC, ⟨ltr3, hltr3⟩, ⟨r3, hr3, hr3id⟩, hteamC, hmatC,
      haiC, hboC, hnowC⟩ := goc_tournament_none_post tr sB hpcB
    simp only [hg3] at h
    have hr1C : sC.pending.teams.find? (teamKey SOURCE_TYPE t1.id) = some r1 := by
      rw [hteamC]; exact hr1B
    have hr2C : sC.pending.teams.find? (teamKey SOURCE_TYPE t2.id) = some r2 := by
      rw [hteamC]; exact hr2
    simp only [dbStep_none] at h
    cases hfm : sC.pending.matches_.find? (matchKey SOURCE_TYPE m.id) with
    | some existing =>
      simp only [hfm] at h
      rw [update_match_none_apply _ _ _
        (recognizedUpds_matchUpdDict_ne (to_match_dict m))] at h
      simp only [Except.ok.injEq, Prod.mk.injEq] at h
      obtain ⟨hi, hs2⟩ := h
      subst hi
      subst hs2
      refine ⟨rfl, ⟨t1, rfl, r1, hr1C⟩, ⟨t2, rfl, r2, hr2C⟩, ?_, ?_, ?_⟩
      · intro tr' htr'
        cases Option.some.inj htr'
        exact ⟨r3, hr3⟩
      · have hmap := updDB_matchKey_find? sC.pending existing.id
          (matchUpdDict (to_match_dict m)) SOURCE_TYPE m.id
        rw [hfm] at hmap
        simp only [Option.map_some'] at hmap
        obtain ⟨rm, hrm, hrmid⟩ := Option.map_eq_some'.mp hmap
        exact ⟨rm, hrm, hrmid⟩
      · intro hwf
        have hwfC : MatchWF sC.pending := by
          refine MatchWF_mono _ _ ?_ ?_ ?_ hwf
          · rw [hteamC, hlt2, hlt1]
            exact ⟨lt1 ++ lt2, by rw [List.append_assoc]⟩
          · rw [hltr3, htourB, htour1]; exact ⟨ltr3, rfl⟩
          · rw [hmatC, hmatB, hmat1]
        exact MatchWF_updDB sC.pending existing.id _ hwfC
    | none =>
      simp only [hfm] at h
      simp only [dbStep_none, dbCommit_none] at h
      simp only [Except.ok.injEq, Prod.mk.injEq] at h
      obtain ⟨hi, hs2⟩ := h
      subst hi
      subst hs2
      refine ⟨rfl, ⟨t1, rfl, r1, hr1C⟩, ⟨t2, rfl, r2, hr2C⟩, ?_, ?_, ?_⟩
      · intro tr' htr'
        cases Option.some.inj htr'
        exact ⟨r3, hr3⟩
      · have hfind : (sC.pending.matches_
            ++ [insMatchRow (to_match_dict m) i1 i2 (some i3)
                sC.pending.next_id sC.pending.now]).find?
              (matchKey SOURCE_TYPE m.id)
            = some (insMatchRow (to_match_dict m) i1 i2 (some i3)
                sC.pending.next_id sC.pending.now) := by
          rw [find?_append_none _ hfm]
          simp [List.find?_cons, matchKey, insMatchRow, to_match_dict]
        exact ⟨_, hfind, rfl⟩
      · intro hwf
        have hwfC : MatchWF sC.pending := by
          refine MatchWF_mono _ _ ?_ ?_ ?_ hwf
          · rw [hteamC, hlt2, hlt1]
            exact ⟨lt1 ++ lt2, by rw [List.append_assoc]⟩
          · rw [hltr3, htourB, htour1]; exact ⟨ltr3, rfl⟩
          · rw [hmatC, hmatB, hmat1]
        intro mr hmr
        rcases List.mem_append.mp hmr with hmr | hmr
        · exact hwfC mr hmr
        · rcases List.mem_singleton.mp hmr with rfl
          refine ⟨⟨r1, List.mem_of_find?_eq_some hr1C, hr1id⟩,
            ⟨r2, List.mem_of_find?_eq_some hr2C, hr2id⟩, ?_⟩
          intro tid htid
          cases Option.some.inj htid
          exact ⟨r3, List.mem_of_find?_eq_some hr3, hr3id⟩

/-- Re-running `save_match` when both teams, the tournament and the match
are already resolvable takes the pure lookup/update path: it returns the
existing match row's internal id, leaves teams and tournaments untouched and
preserves the number of match rows. -/
theorem save_matchAux_none_again (m : BO3Match) (t1 t2 : BO3Team)
    (rm : MatchRow) (s : PState) (_hpc : s.pending = s.committed)
    (hm1 : m.team1 = some t1) (hm2 : m.team2 = some t2)
    (hf1 : ∃ r, s.pending.teams.find? (teamKey SOURCE_TYPE t1.id) = some r)
    (hf2 : ∃ r, s.pending.teams.find? (teamKey SOURCE_TYPE t2.id) = some r)
    (hftr : ∀ tr, m.tournament = some tr →
      ∃ r, s.pending.tournaments.find? (tournamentKey SOURCE_TYPE tr.id) = some r)
    (hfm : s.pending.matches_.find? (matchKey SOURCE_TYPE m.id) = some rm) :
    ∃ s2, save_matchAux none m s = .ok (rm.id, s2)
      ∧ s2.pending = s2.committed
      ∧ s2.pending.teams = s.pending.teams
      ∧ s2.pending.tournaments = s.pending.tournaments
      ∧ s2.pending.matches_.length = s.pending.matches_.length := by
  obtain ⟨r1, hr1⟩ := hf1
  obtain ⟨r2, hr2⟩ := hf2
  simp only [save_matchAux]
  rw [show (to_match_dict m).team1 = m.team1 from rfl,
      show (to_match_dict m).team2 = m.team2 from rfl,
      show (to_match_dict m).tournament = m.tournament from rfl,
      show (to_match_dict m).source_type = SOURCE_TYPE from rfl,
      show (to_match_dict m).source_id = m.id from rfl]
  rw [hm1, hm2]
  simp only [goc_team_found s hr1]
  simp only [goc_team_found { s with stmts := s.stmts + 1 } hr2]
  cases hmt : m.tournament with
  | none =>
    simp only [dbStep_none, hfm]
    rw [update_match_none_apply _ _ _
      (recognizedUpds_matchUpdDict_ne (to_match_dict m))]
    refine ⟨_, rfl, rfl, rfl, rfl, ?_⟩
    simp [updDB]
  | some tr =>
    obtain ⟨r3, hr3⟩ := hftr tr hmt
    simp only [goc_tournament_found { s with stmts := s.stmts + 1 + 1 } hr3]
    simp only [dbStep_none, hfm]
    rw [update_match_none_apply _ _ _
      (recognizedUpds_matchUpdDict_ne (to_match_dict m))]
    refine ⟨_, rfl, rfl, rfl, rfl, ?_⟩
    simp [updDB]

/-!
## C1 — idempotence of save_match
-/

/-- C1: a second `save_match` with the identical input returns the same
internal match id and creates no second team, tournament or match row — it
finds the existing match by `(source_type, source_id)` and updates it in
place instead of inserting. -/
theorem save_match_idempotent (db : DB) (m : BO3Match) (i1 : Nat) (db1 : DB)
    (h : save_match none db m = (.ok i1, db1)) :
    ∃ db2, save_match none db1 m = (.ok i1, db2)
      ∧ db2.teams = db1.teams
      ∧ db2.tournaments = db1.tournaments
      ∧ db2.matches_.length = db1.matches_.length := by
  unfold save_match at h
  cases haux : save_matchAux none m ⟨db, db, 0⟩ with
  | error e =>
    rw [haux] at h
    simp at h
  | ok v =>
    obtain ⟨i, s⟩ := v
    rw [haux] at h
    simp only [Prod.mk.injEq, Except.ok.injEq] at h
    obtain ⟨hi, hdb1⟩ := h
    obtain ⟨hpc2, ⟨t1, hm1, hf1⟩, ⟨t2, hm2, hf2⟩, hftr, ⟨rm, hrm, hrmid⟩, hwfp⟩ :=
      save_matchAux_none_post m ⟨db, db, 0⟩ rfl haux
    have hsp : s.pending = db1 := by rw [hpc2, hdb1]
    rw [hsp] at hf1 hf2 hftr hrm
    obtain ⟨s2, hagain, hpc3, hteams, htour, hlen⟩ :=
      save_matchAux_none_again m t1 t2 rm ⟨db1, db1, 0⟩ rfl hm1 hm2
        hf1 hf2 hftr hrm
    refine ⟨s2.committed, ?_, ?_, ?_, ?_⟩
    · unfold save_match
      rw [hagain, hrmid, hi]
    · rw [← hpc3]; exact hteams
    · rw [← hpc3]; exact htour
    · rw [← hpc3]; exact hlen

/-- C1 witness: the fixture match saved twice into an empty store; the
second call returns the same internal id 3 and grows no table. -/
theorem save_match_idempotent_witness :
    ∃ db2, save_match none dbW1 matchW = (.ok 3, db2)
      ∧ db2.teams = dbW1.teams
      ∧ db2.tournaments = dbW1.tournaments
      ∧ db2.matches_.length = dbW1.matches_.length :=
  save_match_idempotent {} matchW 3 dbW1 (by rfl)

/-!
## C3 — referential integrity of saved matches
-/

/-- C3: `save_match` resolves or creates both teams and the tournament
strictly before writing the match row, so every successfully saved store
keeps the invariant that no match row references a nonexistent team or
tournament row. -/
theorem save_match_referential_integrity (db : DB) (m : BO3Match) (i : Nat)
    (db1 : DB) (hwf : MatchWF db) (h : save_match none db m = (.ok i, db1)) :
    MatchWF db1 := by
  unfold save_match at h
  cases haux : save_matchAux none m ⟨db, db, 0⟩ with
  | error e =>
    rw [haux] at h
    simp at h
  | ok v =>
    obtain ⟨i0, s⟩ := v
    rw [haux] at h
    simp only [Prod.mk.injEq, Except.ok.injEq] at h
    obtain ⟨hi, hdb1⟩ := h
    obtain ⟨hpc2, _, _, _, _, hwfp⟩ :=
      save_matchAux_none_post m ⟨db, db, 0⟩ rfl haux
    have : MatchWF s.pending := hwfp hwf
    rw [hpc2, hdb1] at this
    exact this

/-- C3 witness: the fixture store produced by saving the fixture match into
an empty store satisfies the referential-integrity invariant. -/
theorem save_match_referential_integrity_witness : MatchWF dbW1 :=
  save_match_referential_integrity {} matchW 3 dbW1
    (by intro mr hmr; exact absurd hmr (List.not_mem_nil mr)) (by rfl)

/-!
## C2 — failure semantics of save_match under injected faults
-/

theorem dbStep_err {k : Option Nat} {s : PState} {e : PyErr} {c : DB}
    (h : dbStep k s = .error (e, c)) : c = s.committed := by
  unfold dbStep at h
  split at h
  · simp only [Except.error.injEq, Prod.mk.injEq] at h
    exact h.2.symm
  · simp at h

theorem dbStep_ok {k : Option Nat} {s s2 : PState}
    (h : dbStep k s = .ok s2) : s2 = { s with stmts := s.stmts + 1 } := by
  unfold dbStep at h
  split at h
  · simp at h
  · simp only [Except.ok.injEq] at h
    exact h.symm

theorem dbCommit_err {k : Option Nat} {s : PState} {e : PyErr} {c : DB}
    (h : dbCommit k s = .error (e, c)) : c = s.committed := by
  unfold dbCommit at h
  split at h
  · simp only [Except.error.injEq, Prod.mk.injEq] at h
    exact h.2.symm
  · simp at h

theorem dbCommit_ok {k : Option Nat} {s s2 : PState}
    (h : dbCommit k s = .ok s2) :
    s2 = ⟨s.pending, s.pending, s.stmts + 1⟩ := by
  unfold dbCommit at h
  split at h
  · simp at h
  · simp only [Except.ok.injEq] at h
    exact h.symm

theorem goc_team_err {k : Option Nat} {t : BO3Team} {st : String} {s : PState}
    {e : PyErr} {c : DB}
    (h : get_or_create_team_from_model k t st s = .error (e, c)) :
    c = s.committed := by
  unfold get_or_create_team_from_model at h
  cases h1 : dbStep k s with
  | error e1 =>
    simp only [h1] at h
    obtain rfl : e1 = (e, c) := by simpa using h
    exact dbStep_err h1
  | ok s1 =>
    simp only [h1] at h
    cases hf : List.find? (teamKey st (to_team_dict t).source_id)
        s1.pending.teams with
    | some existing =>
      simp only [hf] at h
      simp at h
    | none =>
      simp only [hf] at h
      cases h2 : dbStep k s1 with
      | error e2 =>
        simp only [h2] at h
        obtain rfl : e2 = (e, c) := by simpa using h
        have h3 := dbStep_err h2
        rw [h3, dbStep_ok h1]
      | ok s2 =>
        simp only [h2] at h
        split at h
        next e3 heq3 =>
          obtain rfl : e3 = (e, c) := by simpa using h
          have h4a := dbCommit_err heq3
          have h4 : c = s2.committed := h4a
          rw [h4, dbStep_ok h2, dbStep_ok h1]
        next s3 heq3 => simp at h

theorem goc_tournament_err {k : Option Nat} {t : BO3Tournament} {st : String}
    {s : PState} {e : PyErr} {c : DB}
    (h : get_or_create_tournament_from_model k t st s = .error (e, c)) :
    c = s.committed := by
  unfold get_or_create_tournament_from_model at h
  cases h1 : dbStep k s with
  | error e1 =>
    simp only [h1] at h
    obtain rfl : e1 = (e, c) := by simpa using h
    exact dbStep_err h1
  | ok s1 =>
    simp only [h1] at h
    cases hf : List.find? (tournamentKey st (to_tournament_dict t).source_id)
        s1.pending.tournaments with
    | some existing =>
      simp only [hf] at h
      simp at h
    | none =>
      simp only [hf] at h
      cases h2 : dbStep k s1 with
      | error e2 =>
        simp only [h2] at h
        obtain rfl : e2 = (e, c) := by simpa using h
        have h3 := dbStep_err h2
        rw [h3, dbStep_ok h1]
      | ok s2 =>
        simp only [h2] at h
        split at h
        next e3 heq3 =>
          obtain rfl : e3 = (e, c) := by simpa using h
          have h4a := dbCommit_err heq3
          have h4 : c = s2.committed := h4a
          rw [h4, dbStep_ok h2, dbStep_ok h1]
        next s3 heq3 => simp at h

theorem goc_team_okG {k : Option Nat} {t : BO3Team} {st : String} {s : PState}
    {i : Nat} {s2 : PState}
    (h : get_or_create_team_from_model k t st s = .ok (i, s2))
    (hpc : s.pending = s.committed) :
    s2.pending = s2.committed
  ∧ (∃ l, s2.committed.teams = s.committed.teams ++ l)
  ∧ s2.committed.tournaments = s.committed.tournaments
  ∧ s2.committed.matches_ = s.committed.matches_
  ∧ s2.committed.ai_predictions = s.committed.ai_predictions
  ∧ s2.committed.betting_odds = s.committed.betting_odds := by
  unfold get_or_create_team_from_model at h
  cases h1 : dbStep k s with
  | error e1 =>
    simp only [h1] at h
    simp at h
  | ok s1 =>
    simp only [h1] at h
    cases hf : List.find? (teamKey st (to_team_dict t).source_id)
        s1.pending.teams with
    | some existing =>
      simp only [hf] at h
      simp only [Except.ok.injEq, Prod.mk.injEq] at h
      obtain ⟨hi, hs2⟩ := h
      rw [← hs2, dbStep_ok h1]
      exact ⟨hpc, ⟨[], by simp⟩, rfl, rfl, rfl, rfl⟩
    | none =>
      simp only [hf] at h
      cases h2 : dbStep k s1 with
      | error e2 =>
        simp only [h2] at h
        simp at h
      | ok s2a =>
        simp only [h2] at h
        split at h
        next e3 heq3 => simp at h
        next s3 heq3 =>
          simp only [Except.ok.injEq, Prod.mk.injEq] at h
          obtain ⟨hi, hs2⟩ := h
          rw [← hs2, dbCommit_ok heq3, dbStep_ok h2, dbStep_ok h1]
          rw [hpc]
          exact ⟨rfl, ⟨[teamRowOf t s.committed.next_id], rfl⟩, rfl, rfl, rfl, rfl⟩

theorem goc_tournament_okG {k : Option Nat} {t : BO3Tournament} {st : String}
    {s : PState} {i : Nat} {s2 : PState}
    (h : get_or_create_tournament_from_model k t st s = .ok (i, s2))
    (hpc : s.pending = s.committed) :
    s2.pending = s2.committed
  ∧ (∃ l, s2.committed.tournaments = s.committed.tournaments ++ l)
  ∧ s2.committed.teams = s.committed.teams
  ∧ s2.committed.matches_ = s.committed.matches_
  ∧ s2.committed.ai_predictions = s.committed.ai_predictions
  ∧ s2.committed.betting_odds = s.committed.betting_odds := by
  unfold get_or_create_tournament_from_model at h
  cases h1 : dbStep k s with
  | error e1 =>
    simp only [h1] at h
    simp at h
  | ok s1 =>
    simp only [h1] at h
    cases hf : List.find? (tournamentKey st (to_tournament_dict t).source_id)
        s1.pending.tournaments with
    | some existing =>
      simp only [hf] at h
      simp only [Except.ok.injEq, Prod.mk.injEq] at h
      obtain ⟨hi, hs2⟩ := h
      rw [← hs2, dbStep_ok h1]
      exact ⟨hpc, ⟨[], by simp⟩, rfl, rfl, rfl, rfl⟩
    | none =>
      simp only [hf] at h
      cases h2 : dbStep k s1 with
      | error e2 =>
        simp only [h2] at h
        simp at h
      | ok s2a =>
        simp only [h2] at h
        split at h
        next e3 heq3 => simp at h
        next s3 heq3 =>
          simp only [Except.ok.injEq, Prod.mk.injEq] at h
          obtain ⟨hi, hs2⟩ := h
          rw [← hs2, dbCommit_ok heq3, dbStep_ok h2, dbStep_ok h1]
          rw [hpc]
          exact ⟨rfl, ⟨[tournamentRowOf t s.committed.next_id], rfl⟩,
            rfl, rfl, rfl, rfl⟩

theorem update_match_err {k : Option Nat} {match_id : Nat}
    {updates : List (String × JVal)} {s : PState} {e : PyErr} {c : DB}
    (h : update_match k match_id updates s = .error (e, c)) :
    c = s.committed := by
  unfold update_match at h
  split at h
  · simp at h
  · split at h
    next e1 heq1 =>
      simp only [Except.error.injEq] at h
      subst h
      exact dbStep_err heq1
    next s1 heq1 =>
      have h2a := dbCommit_err h
      have h2 : c = s1.committed := h2a
      rw [dbStep_ok heq1] at h2
      exact h2

/-- What survives a failed `save_match` call, for any fault point: the error
is re-raised, no match row (nor prediction/odds row) change is committed, but
team and tournament rows committed by the nested get-or-create steps may
remain. -/
theorem save_matchAux_err (k : Option Nat) (m : BO3Match) (s : PState)
    (hpc : s.pending = s.committed) {e : PyErr} {c : DB}
    (h : save_matchAux k m s = .error (e, c)) :
    c.matches_ = s.committed.matches_
  ∧ (∃ l, c.teams = s.committed.teams ++ l)
  ∧ (∃ l, c.tournaments = s.committed.tournaments ++ l)
  ∧ c.ai_predictions = s.committed.ai_predictions
  ∧ c.betting_odds = s.committed.betting_odds := by
  simp only [save_matchAux] at h
  rw [show (to_match_dict m).team1 = m.team1 from rfl,
      show (to_match_dict m).team2 = m.team2 from rfl,
      show (to_match_dict m).tournament = m.tournament from rfl,
      show (to_match_dict m).source_type = SOURCE_TYPE from rfl,
      show (to_match_dict m).source_id = m.id from rfl] at h
  cases hm1 : m.team1 with
  | none =>
    rw [hm1] at h
    cases hm2 : m.team2 with
    | none =>
      rw [hm2] at h
      obtain ⟨he, hc⟩ : PyErr.valueError "Match must have team1 and team2 data" = e
          ∧ s.committed = c := by simpa using h
      rw [← hc]
      exact ⟨rfl, ⟨[], by simp⟩, ⟨[], by simp⟩, rfl, rfl⟩
    | some t2 =>
      rw [hm2] at h
      obtain ⟨he, hc⟩ : PyErr.valueError "Match must have team1 and team2 data" = e
          ∧ s.committed = c := by simpa using h
      rw [← hc]
      exact ⟨rfl, ⟨[], by simp⟩, ⟨[], by simp⟩, rfl, rfl⟩
  | some t1 =>
  rw [hm1] at h
  cases hm2 : m.team2 with
  | none =>
    rw [hm2] at h
    obtain ⟨he, hc⟩ : PyErr.valueError "Match must have team1 and team2 data" = e
        ∧ s.committed = c := by simpa using h
    rw [← hc]
    exact ⟨rfl, ⟨[], by simp⟩, ⟨[], by simp⟩, rfl, rfl⟩
  | some t2 =>
  rw [hm2] at h
  cases hg1 : get_or_create_team_from_model k t1 SOURCE_TYPE s with
  | error e1 =>
    simp only [hg1] at h
    obtain rfl : e1 = (e, c) := by simpa using h
    rw [goc_team_err hg1]
    exact ⟨rfl, ⟨[], by simp⟩, ⟨[], by simp⟩, rfl, rfl⟩
  | ok v1 =>
  obtain ⟨i1, s1⟩ := v1
  simp only [hg1] at h
  obtain ⟨hpc1, ⟨lt1, hlt1⟩, htour1, hmat1, hai1, hbo1⟩ := goc_team_okG hg1 hpc
  cases hg2 : get_or_create_team_from_model k t2 SOURCE_TYPE s1 with
  | error e2 =>
    simp only [hg2] at h
    obtain rfl : e2 = (e, c) := by simpa using h
    rw [goc_team_err hg2]
    exact ⟨hmat1, ⟨lt1, hlt1⟩, ⟨[], by simp [htour1]⟩, hai1, hbo1⟩
  | ok v2 =>
  obtain ⟨i2, sB⟩ := v2
  simp only [hg2] at h
  obtain ⟨hpcB, ⟨lt2, hlt2⟩, htourB, hmatB, haiB, hboB⟩ := goc_team_okG hg2 hpc1
  cases hmt : m.tournament with
  | some tr =>
    rw [hmt] at h
    cases hgt : get_or_create_tournament_from_model k tr SOURCE_TYPE sB with
    | error e3 =>
      simp only [hgt] at h
      obtain rfl : e3 = (e, c) := by simpa using h
      rw [goc_tournament_err hgt]
      refine ⟨by rw [hmatB, hmat1], ⟨lt1 ++ lt2, ?_⟩, ⟨[], by simp [htourB, htour1]⟩,
        by rw [haiB, hai1], by rw [hboB, hbo1]⟩
      rw [hlt2, hlt1, List.append_assoc]
    | ok v3 =>
    obtain ⟨i3, sC⟩ := v3
    simp only [hgt] at h
    obtain ⟨hpcC, ⟨ltr3, hltr3⟩, hteamC, hmatC, haiC, hboC⟩ :=
      goc_tournament_okG hgt hpcB
    cases h4 : dbStep k sC with
    | error e4 =>
      simp only [h4] at h
      obtain rfl : e4 = (e, c) := by simpa using h
      rw [dbStep_err h4]
      refine ⟨by rw [hmatC, hmatB, hmat1], ⟨lt1 ++ lt2, ?_⟩,
        ⟨ltr3, by rw [hltr3, htourB, htour1]⟩,
        by rw [haiC, haiB, hai1], by rw [hboC, hboB, hbo1]⟩
      rw [hteamC, hlt2, hlt1, List.append_assoc]
    | ok s4 =>
    simp only [h4] at h
    have hs4 := dbStep_ok h4
    cases hfm : List.find? (matchKey SOURCE_TYPE m.id) s4.pending.matches_ with
    | some existing =>
      simp only [hfm] at h
      cases hu : update_match k existing.id (matchUpdDict (to_match_dict m)) s4 with
      | error eU =>
        simp only [hu] at h
        obtain rfl : eU = (e, c) := by simpa using h
        have hcu := update_match_err hu
        rw [hcu, hs4]
        refine ⟨by rw [hmatC, hmatB, hmat1], ⟨lt1 ++ lt2, ?_⟩,
          ⟨ltr3, by rw [hltr3, htourB, htour1]⟩,
          by rw [haiC, haiB, hai1], by rw [hboC, hboB, hbo1]⟩
        rw [hteamC, hlt2, hlt1, List.append_assoc]
      | ok sU =>
        simp only [hu] at h
        simp at h
    | none =>
      simp only [hfm] at h
      cases h5 : dbStep k s4 with
      | error e5 =>
        simp only [h5] at h
        obtain rfl : e5 = (e, c) := by simpa using h
        rw [dbStep_err h5, hs4]
        refine ⟨by rw [hmatC, hmatB, hmat1], ⟨lt1 ++ lt2, ?_⟩,
          ⟨ltr3, by rw [hltr3, htourB, htour1]⟩,
          by rw [haiC, haiB, hai1], by rw [hboC, hboB, hbo1]⟩
        rw [hteamC, hlt2, hlt1, List.append_assoc]
      | ok s5 =>
        simp only [h5] at h
        split at h
        next e6 heq6 =>
          obtain rfl : e6 = (e, c) := by simpa using h
          have h6a := dbCommit_err heq6
          have h6 : c = s5.committed := h6a
          rw [h6, dbStep_ok h5, hs4]
          refine ⟨by rw [hmatC, hmatB, hmat1], ⟨lt1 ++ lt2, ?_⟩,
            ⟨ltr3, by rw [hltr3, htourB, htour1]⟩,
            by rw [haiC, haiB, hai1], by rw [hboC, hboB, hbo1]⟩
          rw [hteamC, hlt2, hlt1, List.append_assoc]
        next s6 heq6 => simp at h
  | none =>
    rw [hmt] at h
    cases h4 : dbStep k sB with
    | error e4 =>
      simp only [h4] at h
      obtain rfl : e4 = (e, c) := by simpa using h
      rw [dbStep_err h4]
      refine ⟨by rw [hmatB, hmat1], ⟨lt1 ++ lt2, ?_⟩,
        ⟨[], by simp [htourB, htour1]⟩,
        by rw [haiB, hai1], by rw [hboB, hbo1]⟩
      rw [hlt2, hlt1, List.append_assoc]
    | ok s4 =>
    simp only [h4] at h
    have hs4 := dbStep_ok h4
    cases hfm : List.find? (matchKey SOURCE_TYPE m.id) s4.pending.matches_ with
    | some existing =>
      simp only [hfm] at h
      cases hu : update_match k existing.id (matchUpdDict (to_match_dict m)) s4 with
      | error eU =>
        simp only [hu] at h
        obtain rfl : eU = (e, c) := by simpa using h
        have hcu := update_match_err hu
        rw [hcu, hs4]
        refine ⟨by rw [hmatB, hmat1], ⟨lt1 ++ lt2, ?_⟩,
          ⟨[], by simp [htourB, htour1]⟩,
          by rw [haiB, hai1], by rw [hboB, hbo1]⟩
        rw [hlt2, hlt1, List.append_assoc]
      | ok sU =>
        simp only [hu] at h
        simp at h
    | none =>
      simp only [hfm] at h
      cases h5 : dbStep k s4 with
      | error e5 =>
        simp only [h5] at h
        obtain rfl : e5 = (e, c) := by simpa using h
        rw [dbStep_err h5, hs4]
        refine ⟨by rw [hmatB, hmat1], ⟨lt1 ++ lt2, ?_⟩,
          ⟨[], by simp [htourB, htour1]⟩,
          by rw [haiB, hai1], by rw [hboB, hbo1]⟩
        rw [hlt2, hlt1, List.append_assoc]
      | ok s5 =>
        simp only [h5] at h
        split at h
        next e6 heq6 =>
          obtain rfl : e6 = (e, c) := by simpa using h
          have h6a := dbCommit_err heq6
          have h6 : c = s5.committed := h6a
          rw [h6, dbStep_ok h5, hs4]
          refine ⟨by rw [hmatB, hmat1], ⟨lt1 ++ lt2, ?_⟩,
            ⟨[], by simp [htourB, htour1]⟩,
            by rw [haiB, hai1], by rw [hboB, hbo1]⟩
          rw [hlt2, hlt1, List.append_assoc]
        next s6 heq6 => simp at h

/-- C2 (amended): when `save_match` fails at any fault point, the error is
re-raised and the uncommitted tail of the unit of work is rolled back — no
match, prediction or odds row change survives — but team and tournament rows
created by the nested get-or-create steps were committed immediately and do
survive the failure. -/
theorem save_match_failure_semantics (k : Option Nat) (db : DB) (m : BO3Match)
    {e : PyErr} (h : (save_match k db m).1 = .error e) :
    (save_match k db m).2.matches_ = db.matches_
  ∧ (∃ l, (save_match k db m).2.teams = db.teams ++ l)
  ∧ (∃ l, (save_match k db m).2.tournaments = db.tournaments ++ l)
  ∧ (save_match k db m).2.ai_predictions = db.ai_predictions
  ∧ (save_match k db m).2.betting_odds = db.betting_odds := by
  unfold save_match at h ⊢
  cases haux : save_matchAux k m ⟨db, db, 0⟩ with
  | ok v =>
    rw [haux] at h
    simp at h
  | error ec =>
    obtain ⟨e0, c⟩ := ec
    simp only [haux]
    exact save_matchAux_err k m ⟨db, db, 0⟩ rfl haux

/-- C2 counterexample: injecting a persistence fault at the match `INSERT`
(statement 10 of the fixture run) re-raises the error, yet the two team rows
and the tournament row created earlier in the same `save_match` call remain
committed — the claimed full rollback does not hold. -/
theorem save_match_rollback_counterexample :
    (save_match (some 10) {} matchW).1 = .error .dbError
  ∧ ((save_match (some 10) {} matchW).2).teams.length = 2
  ∧ ((save_match (some 10) {} matchW).2).tournaments.length = 1
  ∧ ((save_match (some 10) {} matchW).2).matches_.length = 0
  ∧ ({} : DB).teams.length = 0
  ∧ (save_match (some 10) {} matchW).2 ≠ ({} : DB) := by
  refine ⟨rfl, rfl, rfl, rfl, rfl, ?_⟩
  intro hc
  have h2 : (2 : Nat) = 0 := congrArg (fun dbx : DB => dbx.teams.length) hc
  exact absurd h2 (by decide)

/-- C2 witness for the amended theorem: the fixture run with the fault at
the match insert. -/
theorem save_match_failure_semantics_witness :
    (save_match (some 10) {} matchW).2.matches_ = ({} : DB).matches_
  ∧ (∃ l, (save_match (some 10) {} matchW).2.teams = ({} : DB).teams ++ l)
  ∧ (∃ l, (save_match (some 10) {} matchW).2.tournaments
      = ({} : DB).tournaments ++ l)
  ∧ (save_match (some 10) {} matchW).2.ai_predictions = ({} : DB).ai_predictions
  ∧ (save_match (some 10) {} matchW).2.betting_odds = ({} : DB).betting_odds :=
  save_match_failure_semantics (some 10) {} matchW (by rfl)

/-!
## C8 — idempotence of save_ai_prediction and save_betting_odds
-/

theorem save_pred_found (db : DB) (mid : Nat) (p : BO3AIPrediction)
    {rm : PredRow}
    (hf : db.ai_predictions.find? (predKey mid SOURCE_TYPE) = some rm) :
    save_ai_prediction none db mid p = (.ok rm.id, updPredDB db rm.id p) := by
  unfold save_ai_prediction
  simp only [save_ai_predictionAux]
  rw [show (to_ai_prediction_dict p mid).source_type = SOURCE_TYPE from rfl]
  simp only [dbStep_none, hf, dbCommit_none]
  rfl

theorem save_pred_fresh (db : DB) (mid : Nat) (p : BO3AIPrediction)
    (hf : db.ai_predictions.find? (predKey mid SOURCE_TYPE) = none) :
    save_ai_prediction none db mid p
      = (.ok db.next_id,
        { db with
          ai_predictions := db.ai_predictions
            ++ [predRowOf (to_ai_prediction_dict p mid) db.next_id db.now]
          next_id := db.next_id + 1 }) := by
  unfold save_ai_prediction
  simp only [save_ai_predictionAux]
  rw [show (to_ai_prediction_dict p mid).source_type = SOURCE_TYPE from rfl]
  simp only [dbStep_none, hf, dbCommit_none]
  rfl

theorem save_odds_found (db : DB) (mid : Nat) (o : BO3BettingOdds)
    {rm : OddsRow}
    (hf : db.betting_odds.find? (oddsKey mid SOURCE_TYPE o.provider) = some rm) :
    save_betting_odds none db mid o
      = (.ok rm.id, updOddsDB db rm.id (to_betting_odds_dict o mid)) := by
  unfold save_betting_odds
  simp only [save_betting_oddsAux]
  rw [show (to_betting_odds_dict o mid).source_type = SOURCE_TYPE from rfl,
      show (to_betting_odds_dict o mid).provider = o.provider from rfl]
  simp only [dbStep_none, hf, dbCommit_none]
  rfl

theorem save_odds_fresh (db : DB) (mid : Nat) (o : BO3BettingOdds)
    (hf : db.betting_odds.find? (oddsKey mid SOURCE_TYPE o.provider) = none) :
    save_betting_odds none db mid o
      = (.ok db.next_id,
        { db with
          betting_odds := db.betting_odds
            ++ [oddsRowOf (to_betting_odds_dict o mid) db.next_id db.now]
          next_id := db.next_id + 1 }) := by
  unfold save_betting_odds
  simp only [save_betting_oddsAux]
  rw [show (to_betting_odds_dict o mid).source_type = SOURCE_TYPE from rfl,
      show (to_betting_odds_dict o mid).provider = o.provider from rfl]
  simp only [dbStep_none, hf, dbCommit_none]
  rfl

theorem predKey_pres (mid : Nat) (i : Nat) (p : BO3AIPrediction) (now : Nat)
    (r : PredRow) :
    predKey mid SOURCE_TYPE
        (if r.id == i then
          { r with
            prediction_data := p
            source_id := p.id
            updated_at := some now }
        else r)
      = predKey mid SOURCE_TYPE r := by
  cases h : (r.id == i) with
  | true => simp [h, predKey]
  | false => simp [h]

theorem oddsKey_pres (mid : Nat) (prov : String) (i : Nat) (od : OddsDict)
    (now : Nat) (r : OddsRow) :
    oddsKey mid SOURCE_TYPE prov
        (if r.id == i then
          { r with
            team1_odds := od.team1_odds
            team2_odds := od.team2_odds
            team1_implied_prob := od.team1_implied_prob
            team2_implied_prob := od.team2_implied_prob
            odds_data := od.odds_data
            updated_at := some now
            fetched_at := some now }
        else r)
      = oddsKey mid SOURCE_TYPE prov r := by
  cases h : (r.id == i) with
  | true => simp [h, oddsKey]
  | false => simp [h]

/-- C8: `save_ai_prediction` and `save_betting_odds` are idempotent per
their identity keys — `(match_id, source_type)` and
`(match_id, source_type, provider)` respectively: re-saving a record whose
key already has a row returns that row's internal id, overwrites the
mutable payload fields of the existing row and touches `updated_at` instead
of inserting a duplicate — while saving odds from two distinct providers
for the same match produces two distinct odds rows. -/
theorem save_prediction_and_odds_idempotent (db : DB) (mid : Nat)
    (p : BO3AIPrediction) (o1 o2 : BO3BettingOdds)
    (hprov : o1.provider ≠ o2.provider) :
    (∀ i1 db1, save_ai_prediction none db mid p = (.ok i1, db1) →
      ∃ db2, save_ai_prediction none db1 mid p = (.ok i1, db2)
        ∧ db2.ai_predictions.length = db1.ai_predictions.length
        ∧ (∃ r ∈ db2.ai_predictions, r.id = i1 ∧ r.prediction_data = p
            ∧ r.updated_at = some db1.now)
        ∧ db2.teams = db1.teams
        ∧ db2.matches_ = db1.matches_
        ∧ db2.betting_odds = db1.betting_odds)
  ∧ (∀ i1 db1, save_betting_odds none db mid o1 = (.ok i1, db1) →
      ∃ db2, save_betting_odds none db1 mid o1 = (.ok i1, db2)
        ∧ db2.betting_odds.length = db1.betting_odds.length
        ∧ (∃ r ∈ db2.betting_odds, r.id = i1
            ∧ r.team1_odds = o1.team_1.coeff
            ∧ r.team2_odds = o1.team_2.coeff
            ∧ r.team1_implied_prob = (to_betting_odds_dict o1 mid).team1_implied_prob
            ∧ r.team2_implied_prob = (to_betting_odds_dict o1 mid).team2_implied_prob
            ∧ r.odds_data = o1
            ∧ r.updated_at = some db1.now
            ∧ r.fetched_at = some db1.now)
        ∧ db2.teams = db1.teams
        ∧ db2.matches_ = db1.matches_
        ∧ db2.ai_predictions = db1.ai_predictions)
  ∧ (∀ i1 db1 i2 db2, save_betting_odds none db mid o1 = (.ok i1, db1) →
      save_betting_odds none db1 mid o2 = (.ok i2, db2) →
      ∃ ra ∈ db2.betting_odds, ∃ rb ∈ db2.betting_odds,
        ra.match_id = mid ∧ ra.provider = o1.provider
        ∧ rb.match_id = mid ∧ rb.provider = o2.provider ∧ ra ≠ rb) := by
  refine ⟨?_, ?_, ?_⟩
  · intro i1 db1 h1
    have hex : ∃ r, db1.ai_predictions.find? (predKey mid SOURCE_TYPE) = some r
        ∧ r.id = i1 := by
      cases hf : db.ai_predictions.find? (predKey mid SOURCE_TYPE) with
      | some rm =>
        rw [save_pred_found db mid p hf] at h1
        simp only [Prod.mk.injEq, Except.ok.injEq] at h1
        obtain ⟨hi, hdb1⟩ := h1
        rw [← hdb1]
        have hfind : (updPredDB db rm.id p).ai_predictions.find?
            (predKey mid SOURCE_TYPE)
            = (db.ai_predictions.find? (predKey mid SOURCE_TYPE)).map
              (fun r => if r.id == rm.id then
                { r with
                  prediction_data := p
                  source_id := p.id
                  updated_at := some db.now }
              else r) := by
          unfold updPredDB
          exact find?_map_of_pred_inv _ _ _ (predKey_pres mid rm.id p db.now)
        rw [hf] at hfind
        refine ⟨_, hfind, ?_⟩
        rw [← hi]
        simp
      | none =>
        rw [save_pred_fresh db mid p hf] at h1
        simp only [Prod.mk.injEq, Except.ok.injEq] at h1
        obtain ⟨hi, hdb1⟩ := h1
        rw [← hdb1, ← hi]
        have hfind : (db.ai_predictions
            ++ [predRowOf (to_ai_prediction_dict p mid) db.next_id db.now]).find?
              (predKey mid SOURCE_TYPE)
            = some (predRowOf (to_ai_prediction_dict p mid) db.next_id db.now) := by
          rw [find?_append_none _ hf]
          simp [List.find?_cons, predKey, predRowOf, to_ai_prediction_dict]
        exact ⟨_, hfind, rfl⟩
    obtain ⟨rm1, hrm1, hrm1id⟩ := hex
    refine ⟨updPredDB db1 rm1.id p, ?_, ?_, ?_, rfl, rfl, rfl⟩
    · rw [save_pred_found db1 mid p hrm1, hrm1id]
    · simp [updPredDB]
    · refine ⟨(fun r => if r.id == rm1.id then
          { r with
            prediction_data := p
            source_id := p.id
            updated_at := some db1.now }
        else r) rm1, ?_, ?_⟩
      · exact List.mem_map_of_mem _ (List.mem_of_find?_eq_some hrm1)
      · simp [hrm1id]
  · intro i1 db1 h1
    have hex : ∃ r, db1.betting_odds.find? (oddsKey mid SOURCE_TYPE o1.provider)
        = some r ∧ r.id = i1 := by
      cases hf : db.betting_odds.find? (oddsKey mid SOURCE_TYPE o1.provider) with
      | some rm =>
        rw [save_odds_found db mid o1 hf] at h1
        simp only [Prod.mk.injEq, Except.ok.injEq] at h1
        obtain ⟨hi, hdb1⟩ := h1
        rw [← hdb1]
        have hfind : (updOddsDB db rm.id (to_betting_odds_dict o1 mid)).betting_odds.find?
            (oddsKey mid SOURCE_TYPE o1.provider)
            = (db.betting_odds.find? (oddsKey mid SOURCE_TYPE o1.provider)).map
              (fun r => if r.id == rm.id then
                { r with
                  team1_odds := (to_betting_odds_dict o1 mid).team1_odds
                  team2_odds := (to_betting_odds_dict o1 mid).team2_odds
                  team1_implied_prob := (to_betting_odds_dict o1 mid).team1_implied_prob
                  team2_implied_prob := (to_betting_odds_dict o1 mid).team2_implied_prob
                  odds_data := (to_betting_odds_dict o1 mid).odds_data
                  updated_at := some db.now
                  fetched_at := some db.now }
              else r) := by
          unfold updOddsDB
          exact find?_map_of_pred_inv _ _ _
            (oddsKey_pres mid o1.provider rm.id (to_betting_odds_dict o1 mid) db.now)
        rw [hf] at hfind
        refine ⟨_, hfind, ?_⟩
        rw [← hi]
        simp
      | none =>
        rw [save_odds_fresh db mid o1 hf] at h1
        simp only [Prod.mk.injEq, Except.ok.injEq] at h1
        obtain ⟨hi, hdb1⟩ := h1
        rw [← hdb1, ← hi]
        have hfind : (db.betting_odds
            ++ [oddsRowOf (to_betting_odds_dict o1 mid) db.next_id db.now]).find?
              (oddsKey mid SOURCE_TYPE o1.provider)
            = some (oddsRowOf (to_betting_odds_dict o1 mid) db.next_id db.now) := by
          rw [find?_append_none _ hf]
          simp [List.find?_cons, oddsKey, oddsRowOf, to_betting_odds_dict]
        exact ⟨_, hfind, rfl⟩
    obtain ⟨rm1, hrm1, hrm1id⟩ := hex
    refine ⟨updOddsDB db1 rm1.id (to_betting_odds_dict o1 mid),
      ?_, ?_, ?_, rfl, rfl, rfl⟩
    · rw [save_odds_found db1 mid o1 hrm1, hrm1id]
    · simp [updOddsDB]
    · refine ⟨(fun r => if r.id == rm1.id then
          { r with
            team1_odds := (to_betting_odds_dict o1 mid).team1_odds
            team2_odds := (to_betting_odds_dict o1 mid).team2_odds
            team1_implied_prob := (to_betting_odds_dict o1 mid).team1_implied_prob
            team2_implied_prob := (to_betting_odds_dict o1 mid).team2_implied_prob
            odds_data := (to_betting_odds_dict o1 mid).odds_data
            updated_at := some db1.now
            fetched_at := some db1.now }
        else r) rm1, ?_, ?_⟩
      · exact List.mem_map_of_mem _ (List.mem_of_find?_eq_some hrm1)
      · simp [hrm1id, to_betting_odds_dict]
  · intro i1 db1 i2 db2 h1 h2
    have hr1 : ∃ r ∈ db1.betting_odds, r.match_id = mid
        ∧ r.provider = o1.provider := by
      cases hf : db.betting_odds.find? (oddsKey mid SOURCE_TYPE o1.provider) with
      | some rm =>
        rw [save_odds_found db mid o1 hf] at h1
        simp only [Prod.mk.injEq, Except.ok.injEq] at h1
        obtain ⟨hi, hdb1⟩ := h1
        rw [← hdb1]
        have hkey : rm.match_id = mid ∧ rm.provider = o1.provider := by
          have := List.find?_some hf
          unfold oddsKey at this
          simp only [Bool.and_eq_true, beq_iff_eq] at this
          exact ⟨this.1.1, this.2⟩
        refine ⟨(fun r => if r.id == rm.id then
            { r with
              team1_odds := (to_betting_odds_dict o1 mid).team1_odds
              team2_odds := (to_betting_odds_dict o1 mid).team2_odds
              team1_implied_prob := (to_betting_odds_dict o1 mid).team1_implied_prob
              team2_implied_prob := (to_betting_odds_dict o1 mid).team2_implied_prob
              odds_data := (to_betting_odds_dict o1 mid).odds_data
              updated_at := some db.now
              fetched_at := some db.now }
          else r) rm, ?_, ?_⟩
        · exact List.mem_map_of_mem _ (List.mem_of_find?_eq_some hf)
        · simp [hkey.1, hkey.2]
      | none =>
        rw [save_odds_fresh db mid o1 hf] at h1
        simp only [Prod.mk.injEq, Except.ok.injEq] at h1
        obtain ⟨hi, hdb1⟩ := h1
        rw [← hdb1]
        refine ⟨oddsRowOf (to_betting_odds_dict o1 mid) db.next_id db.now, ?_, rfl, rfl⟩
        exact List.mem_append_right _ (List.mem_singleton.mpr rfl)
    obtain ⟨r1, hr1mem, hr1mid, hr1prov⟩ := hr1
    have hboth : (∃ ra ∈ db2.betting_odds, ra.match_id = mid
          ∧ ra.provider = o1.provider)
        ∧ ∃ rb ∈ db2.betting_odds, rb.match_id = mid
          ∧ rb.provider = o2.provider := by
      cases hf2 : db1.betting_odds.find? (oddsKey mid SOURCE_TYPE o2.provider) with
      | some rm2 =>
        rw [save_odds_found db1 mid o2 hf2] at h2
        simp only [Prod.mk.injEq, Except.ok.injEq] at h2
        obtain ⟨hi2, hdb2⟩ := h2
        rw [← hdb2]
        have hkey2 : rm2.match_id = mid ∧ rm2.provider = o2.provider := by
          have := List.find?_some hf2
          unfold oddsKey at this
          simp only [Bool.and_eq_true, beq_iff_eq] at this
          exact ⟨this.1.1, this.2⟩
        constructor
        · refine ⟨(fun r => if r.id == rm2.id then
              { r with
                team1_odds := (to_betting_odds_dict o2 mid).team1_odds
                team2_odds := (to_betting_odds_dict o2 mid).team2_odds
                team1_implied_prob := (to_betting_odds_dict o2 mid).team1_implied_prob
                team2_implied_prob := (to_betting_odds_dict o2 mid).team2_implied_prob
                odds_data := (to_betting_odds_dict o2 mid).odds_data
                updated_at := some db1.now
                fetched_at := some db1.now }
            else r) r1, ?_, ?_⟩
          · exact List.mem_map_of_mem _ hr1mem
          · cases hh : (r1.id == rm2.id) <;> simp [hh, hr1mid, hr1prov]
        · refine ⟨(fun r => if r.id == rm2.id then
              { r with
                team1_odds := (to_betting_odds_dict o2 mid).team1_odds
                team2_odds := (to_betting_odds_dict o2 mid).team2_odds
                team1_implied_prob := (to_betting_odds_dict o2 mid).team1_implied_prob
                team2_implied_prob := (to_betting_odds_dict o2 mid).team2_implied_prob
                odds_data := (to_betting_odds_dict o2 mid).odds_data
                updated_at := some db1.now
                fetched_at := some db1.now }
            else r) rm2, ?_, ?_⟩
          · exact List.mem_map_of_mem _ (List.mem_of_find?_eq_some hf2)
          · simp [hkey2.1, hkey2.2]
      | none =>
        rw [save_odds_fresh db1 mid o2 hf2] at h2
        simp only [Prod.mk.injEq, Except.ok.injEq] at h2
        obtain ⟨hi2, hdb2⟩ := h2
        rw [← hdb2]
        constructor
        · exact ⟨r1, List.mem_append_left _ hr1mem, hr1mid, hr1prov⟩
        · exact ⟨oddsRowOf (to_betting_odds_dict o2 mid) db1.next_id db1.now,
            List.mem_append_right _ (List.mem_singleton.mpr rfl), rfl, rfl⟩
    obtain ⟨⟨ra, hramem, hra⟩, ⟨rb, hrbmem, hrb⟩⟩ := hboth
    refine ⟨ra, hramem, rb, hrbmem, hra.1, hra.2, hrb.1, hrb.2, ?_⟩
    intro hc
    apply hprov
    rw [← hra.2, hc, hrb.2]

/-- C8 witness: a prediction saved twice into an empty store for match id 9,
odds from one provider re-saved with the same key, and odds from two
distinct providers for the same match. -/
theorem save_prediction_and_odds_idempotent_witness :
    (∃ db2, save_ai_prediction none
        (save_ai_prediction none {} 9 predW).2 9 predW
        = (.ok 0, db2)
      ∧ db2.ai_predictions.length
          = (save_ai_prediction none {} 9 predW).2.ai_predictions.length
      ∧ (∃ r ∈ db2.ai_predictions, r.id = 0 ∧ r.prediction_data = predW
          ∧ r.updated_at = some (save_ai_prediction none {} 9 predW).2.now)
      ∧ db2.teams = (save_ai_prediction none {} 9 predW).2.teams
      ∧ db2.matches_ = (save_ai_prediction none {} 9 predW).2.matches_
      ∧ db2.betting_odds = (save_ai_prediction none {} 9 predW).2.betting_odds)
  ∧ (∃ db2, save_betting_odds none
        (save_betting_odds none {} 9 oddsW).2 9 oddsW
        = (.ok 0, db2)
      ∧ db2.betting_odds.length
          = (save_betting_odds none {} 9 oddsW).2.betting_odds.length
      ∧ (∃ r ∈ db2.betting_odds, r.id = 0
          ∧ r.team1_odds = oddsW.team_1.coeff
          ∧ r.team2_odds = oddsW.team_2.coeff
          ∧ r.team1_implied_prob = (to_betting_odds_dict oddsW 9).team1_implied_prob
          ∧ r.team2_implied_prob = (to_betting_odds_dict oddsW 9).team2_implied_prob
          ∧ r.odds_data = oddsW
          ∧ r.updated_at = some (save_betting_odds none {} 9 oddsW).2.now
          ∧ r.fetched_at = some (save_betting_odds none {} 9 oddsW).2.now)
      ∧ db2.teams = (save_betting_odds none {} 9 oddsW).2.teams
      ∧ db2.matches_ = (save_betting_odds none {} 9 oddsW).2.matches_
      ∧ db2.ai_predictions = (save_betting_odds none {} 9 oddsW).2.ai_predictions)
  ∧ (∃ ra ∈ (save_betting_odds none (save_betting_odds none {} 9 oddsW).2
        9 oddsW2).2.betting_odds,
      ∃ rb ∈ (save_betting_odds none (save_betting_odds none {} 9 oddsW).2
        9 oddsW2).2.betting_odds,
      ra.match_id = 9 ∧ ra.provider = oddsW.provider
      ∧ rb.match_id = 9 ∧ rb.provider = oddsW2.provider ∧ ra ≠ rb) := by
  have h := save_prediction_and_odds_idempotent {} 9 predW oddsW oddsW2
    (by intro hc; exact absurd hc (by decide))
  refine ⟨?_, ?_, ?_⟩
  · exact h.1 0 (save_ai_prediction none {} 9 predW).2 (by rfl)
  · exact h.2.1 0 (save_betting_odds none {} 9 oddsW).2 (by rfl)
  · exact h.2.2 0 (save_betting_odds none {} 9 oddsW).2 1
      (save_betting_odds none (save_betting_odds none {} 9 oddsW).2 9 oddsW2).2
      (by rfl) (by rfl)

end CSGOBet
